import Mathlib

/-!
# Verification of the dd-val data-dictionary validator and its evaluation loop

Shallow embedding of the dd-val repository (Python) into Lean 4:

* `src/dd_val/parse.py`   — value parsers and the dictionary model;
* `src/dd_val/checks.py`  — the rule-based check engine;
* `src/dd_val/cli.py`     — the engine driver and the since-last-run resolver;
* `src/dd_eval/score.py`  — the scoring harness;
* `src/dd_eval/corrupt.py`— the corruption engine (the fragments the claims need);
* `src/dd_eval/synth.py`  — the clean fixture generator.

Modelling conventions.  CSV rows are association lists from column name to
string value; Python dicts are embedded as association lists with
insert-or-update semantics (`pyDictInsert`), preserving insertion order like
Python dicts do.  File I/O boundaries become explicit data (lists of rows, an
abstract file-system record for path resolution).  Python stdlib calls at the
boundary are embedded by their documented semantics on the values that occur:
`int(s)` and `float(s)` as decimal-literal parsers, `str.strip` as whitespace
trimming, string formatting of naturals as base-10 rendering.  Pseudo-random
draws are abstracted at the `random` interface: each `rng.random() < p` gate
becomes a Boolean draw, `rng.randrange(lo, hi)` becomes `lo + k % (hi - lo)`
for an arbitrary natural `k`, so theorems quantify over every value sequence
the RNG interface can deliver (a superset of the Mersenne-Twister outputs).
Fractions that Python computes in binary floating point (rates compared to
thresholds such as 0.95) are modelled over `Rat`; for the sample sizes the
code admits (cap 50000) the float and rational comparisons agree because no
fraction with denominator at most 50000 lies within one ulp of the thresholds
without being exactly representable.
-/

namespace DD

/-! ## Python string primitives -/

/-- Characters Python `str.strip()` removes (ASCII whitespace; the unicode
whitespace the fixtures never contain is out of scope). -/
def pyIsSpace (c : Char) : Bool :=
  c = ' ' || c = '\t' || c = '\n' || c = '\r' || c = '\x0b' || c = '\x0c'

def stripList (l : List Char) : List Char :=
  ((l.dropWhile pyIsSpace).reverse.dropWhile pyIsSpace).reverse

/-- Embedding of Python `str.strip()`. -/
def pyStrip (s : String) : String :=
  ⟨stripList s.data⟩

def isDigitChar (c : Char) : Bool :=
  '0' ≤ c && c ≤ '9'

/-- Drop one optional leading sign character. -/
def dropSign : List Char → List Char
  | [] => []
  | c :: r => if c = '+' || c = '-' then r else c :: r

/-- Embedding of Python `int(s)` success on the strings the repository
handles: optional surrounding whitespace, an optional sign, then a nonempty
run of base-10 digits (digit-group underscores and unicode digits are outside
the value space of this code base). Mirrors `dd_val.parse.is_int`. -/
def pyIntAccepts (s : String) : Bool :=
  let t := dropSign (stripList s.data)
  !t.isEmpty && t.all isDigitChar

def is_int (s : String) : Bool := pyIntAccepts s

/-- Digits of a decimal-literal body: `digits [. digits]` or `. digits`,
with an optional exponent part.  Used by `pyFloatAccepts`. -/
def expAccepts (e : List Char) : Bool :=
  let e := dropSign e
  !e.isEmpty && e.all isDigitChar

def floatBodyAccepts (l : List Char) : Bool :=
  let intPart := l.takeWhile isDigitChar
  let rest := l.drop intPart.length
  if rest.isEmpty then !intPart.isEmpty
  else if rest.headD ' ' = '.' then
    let r := rest.tail
    let frac := r.takeWhile isDigitChar
    let rest2 := r.drop frac.length
    (!intPart.isEmpty || !frac.isEmpty) &&
      (rest2.isEmpty ||
        ((rest2.headD ' ' = 'e' || rest2.headD ' ' = 'E') && expAccepts rest2.tail))
  else if rest.headD ' ' = 'e' || rest.headD ' ' = 'E' then
    !intPart.isEmpty && expAccepts rest.tail
  else false

/-- Embedding of Python `float(s)` success on finite decimal literals
(the special spellings inf and nan never occur in this data). Mirrors
`dd_val.parse.is_num`. -/
def pyFloatAccepts (s : String) : Bool :=
  floatBodyAccepts (dropSign (stripList s.data))

def is_num (s : String) : Bool := pyFloatAccepts s

/-- Regex `^\d{4}-\d{2}-\d{2}$` of `dd_val.parse`. -/
def is_date_ymd (s : String) : Bool :=
  match s.data with
  | [a, b, c, d, '-', e, f, '-', g, h] =>
    [a, b, c, d, e, f, g, h].all isDigitChar
  | _ => false

/-- Regex `^\d{1,2}/\d{1,2}/\d{4}$` of `dd_val.parse`. -/
def is_date_mdy (s : String) : Bool :=
  match s.data with
  | [a, '/', b, '/', c, d, e, f] => [a, b, c, d, e, f].all isDigitChar
  | [a, a2, '/', b, '/', c, d, e, f] => [a, a2, b, c, d, e, f].all isDigitChar
  | [a, '/', b, b2, '/', c, d, e, f] => [a, b, b2, c, d, e, f].all isDigitChar
  | [a, a2, '/', b, b2, '/', c, d, e, f] => [a, a2, b, b2, c, d, e, f].all isDigitChar
  | _ => false

/-- `dd_val.parse.guess_date_format`. -/
def guess_date_format (s : String) : String :=
  if is_date_mdy s then "date_mdy"
  else if is_date_ymd s then "date_ymd"
  else "string"

/-- The ten digit characters. -/
def digitChar : Nat → Char
  | 0 => '0'
  | 1 => '1'
  | 2 => '2'
  | 3 => '3'
  | 4 => '4'
  | 5 => '5'
  | 6 => '6'
  | 7 => '7'
  | 8 => '8'
  | 9 => '9'
  | _ => '?'

/-- Base-10 digit characters of `n`, most significant first (fuel-based so
that the kernel can evaluate it; `fuel > n` suffices). -/
def natStrAux : Nat → Nat → List Char
  | 0, _ => []
  | fuel + 1, n =>
    if n < 10 then [digitChar n]
    else natStrAux fuel (n / 10) ++ [digitChar (n % 10)]

/-- Base-10 rendering of a natural number, embedding Python `str(n)` for
nonnegative integers. -/
def natStr (n : Nat) : String :=
  ⟨natStrAux (n + 1) n⟩

/-- Base-10 rendering of an integer, embedding Python `str(i)` / f-string
interpolation of an `int`. -/
def intStr (i : Int) : String :=
  if i < 0 then "-" ++ natStr i.natAbs else natStr i.natAbs

end DD

namespace DD

/-! ## Python dict / assoc-list primitives -/

/-- Python dict assignment `d[k] = v`: update in place when the key exists
(keeping its position), append otherwise. -/
def pyDictInsert (k : String) (v : α) : List (String × α) → List (String × α)
  | [] => [(k, v)]
  | (k0, v0) :: r => if k0 = k then (k, v) :: r else (k0, v0) :: pyDictInsert k v r

/-- Python `d.get(k, dflt)`. -/
def pyDictGet (d : List (String × α)) (k : String) (dflt : α) : α :=
  match d.find? (fun p => p.1 = k) with
  | some p => p.2
  | none => dflt

/-- Python `d.pop(k)` (the removing part; keys are unique in these dicts). -/
def pyDictPop (k : String) : List (String × α) → List (String × α)
  | [] => []
  | (k0, v0) :: r => if k0 = k then r else (k0, v0) :: pyDictPop k r

/-- One CSV data row: column name to raw string value, in column order. -/
abbrev DataRow := List (String × String)

/-- `row.get(c, "")` with the `or ""` normalisation the checks apply. -/
def rowGet (r : DataRow) (c : String) : String := pyDictGet r c ""

/-- Fuel-based splitter (Python `s.split(sep)` / Lean `splitOn` semantics:
separators cut, empty pieces kept).  Fuel `length + 1` always suffices. -/
def splitOnAuxF (sep : List Char) : Nat → List Char → List Char → List (List Char)
  | 0, l, acc => [acc.reverse ++ l]
  | fuel + 1, l, acc =>
    match l with
    | [] => [acc.reverse]
    | c :: rest =>
      if sep.isPrefixOf (c :: rest) then
        acc.reverse :: splitOnAuxF sep fuel ((c :: rest).drop sep.length) []
      else splitOnAuxF sep fuel rest (c :: acc)

/-- Python `s.split(sep)` for a nonempty separator. -/
def pySplit (sep s : String) : List String :=
  if sep = "" then [s]
  else (splitOnAuxF sep.data (s.data.length + 1) s.data []).map fun l => ⟨l⟩

/-- Python `s.startswith(pre)`. -/
def startsWithStr (pre s : String) : Bool :=
  pre.data.isPrefixOf s.data

/-- Substring test (Python `needle in s` for strings). -/
def listContainsSub (needle hay : List Char) : Bool :=
  match hay with
  | [] => needle.isEmpty
  | _ :: t => needle.isPrefixOf hay || listContainsSub needle t

def strContainsSub (needle s : String) : Bool :=
  listContainsSub needle.data s.data

/-- Python `s.split(sep, 1)[0]`: the prefix before the first occurrence of
the separator (the whole string when the separator does not occur). -/
def splitFirst (sep s : String) : String :=
  ((pySplit sep s).headD s)

/-- Python `s.split(sep, 1)[1]` when the separator occurs. -/
def splitRestList (needle hay : List Char) : Option (List Char) :=
  match hay with
  | [] => if needle.isEmpty then some [] else none
  | _ :: t =>
    if needle.isPrefixOf hay then some (hay.drop needle.length)
    else splitRestList needle t

/-- ASCII `str.lower()`. -/
def pyLower (s : String) : String :=
  ⟨s.data.map fun c => if 'A' ≤ c && c ≤ 'Z' then Char.ofNat (c.toNat + 32) else c⟩

/-! ## JSON values (payloads of issues and findings)

Payload shapes in this code base are strings, numbers, lists and string-keyed
mappings.  Numbers are modelled over `Rat` (Python mixes ints and floats in
these payloads; the rates it stores are decimal-rounded). -/

inductive Json where
  | null : Json
  | str : String → Json
  | num : Rat → Json
  | arr : List Json → Json
  | obj : List (String × Json) → Json
  deriving Repr, BEq

/-- Round-half-even on rationals, the rounding of Python `round`. -/
def rheInt (q : Rat) : Int :=
  let f := q.floor
  let frac := q - (f : Rat)
  if frac < 1/2 then f
  else if 1/2 < frac then f + 1
  else if f % 2 = 0 then f else f + 1

/-- Python `round(x, 3)` over the rational model. -/
def round3 (q : Rat) : Rat := (rheInt (q * 1000) : Rat) / 1000

/-! ## `dd_val.parse`: dictionary model -/

/-- One raw dictionary CSV row (the fixed 18-column REDCap header set of
`dd_eval.schema.HEADERS`; `field_annotation` is shortened to `field_annot`).
All fields default to the empty string like `schema.empty_row`. -/
structure DictRow where
  variable_name : String := ""
  form_name : String := ""
  section_header : String := ""
  field_type : String := ""
  field_label : String := ""
  choices_calculations_or_slider_labels : String := ""
  field_note : String := ""
  text_validation_type_or_show_slider_number : String := ""
  text_validation_min : String := ""
  text_validation_max : String := ""
  identifier : String := ""
  branching_logic : String := ""
  required_field : String := ""
  custom_alignment : String := ""
  question_number : String := ""
  matrix_group_name : String := ""
  matrix_ranking : String := ""
  field_annot : String := ""
  deriving Repr, DecidableEq

/-- Split a choice token on its first comma: `part.split(",", 1)`. -/
def splitChoiceToken (part : String) : Option (String × String) :=
  if part.data.contains ',' then
    let code := part.data.takeWhile (fun c => c ≠ ',')
    let label := (part.data.drop (code.length + 1))
    some (pyStrip ⟨code⟩, pyStrip ⟨label⟩)
  else none

/-- `dd_val.parse._parse_choices`. -/
def parseChoices (field_type raw : String) : List (String × String) :=
  let raw := pyStrip raw
  if field_type = "yesno" then [("0", "No"), ("1", "Yes")]
  else if field_type = "truefalse" then [("0", "False"), ("1", "True")]
  else if !(field_type = "radio" || field_type = "dropdown" || field_type = "checkbox") then []
  else if raw = "" then []
  else
    (pySplit "|" raw).foldl
      (fun out part =>
        let part := pyStrip part
        if part = "" then out
        else match splitChoiceToken part with
          | some p => out ++ [p]
          | none => out ++ [(natStr (out.length + 1), part)])
      []

/-- `dd_val.parse.DictField` (the `variable` field is named `var`). -/
structure DictField where
  var : String
  form_name : String
  field_type : String
  field_label : String
  choices : List (String × String)
  validation : String
  vmin : Option String
  vmax : Option String
  identifier : Bool
  required : Bool
  branching_logic : String
  matrix_group : String
  raw : DictRow
  deriving Repr, DecidableEq

/-- `dd_val.parse.Dictionary`: the parsed field list (the `by_var` and
`choices` indexes are the derived lookups below). -/
structure Dictionary where
  fields : List DictField
  deriving Repr, DecidableEq

/-- `Dictionary.by_var` lookup.  Python builds the dict by assignment in row
order, so a duplicated variable name keeps the last row. -/
def byVar (dd : Dictionary) (v : String) : Option DictField :=
  (dd.fields.filter (fun f => f.var = v)).getLast?

/-- `Dictionary.choices` lookup (same last-wins comprehension). -/
def choicesOf (dd : Dictionary) (v : String) : List (String × String) :=
  ((dd.fields.filter (fun f => f.var = v)).getLast?).elim [] (fun f => f.choices)

/-- `dd_val.parse.load_dictionary` on already-split CSV rows (CSV reading is
the I/O boundary).  A row without a variable name is skipped. -/
def loadDictionary (rows : List DictRow) : Dictionary :=
  { fields :=
      rows.filterMap fun r =>
        let v := pyStrip r.variable_name
        if v = "" then none
        else
          let ft := pyStrip r.field_type
          some
            { var := v
              form_name := pyStrip r.form_name
              field_type := ft
              field_label := pyStrip r.field_label
              choices := parseChoices ft r.choices_calculations_or_slider_labels
              validation := pyStrip r.text_validation_type_or_show_slider_number
              vmin := if r.text_validation_min = "" then none else some r.text_validation_min
              vmax := if r.text_validation_max = "" then none else some r.text_validation_max
              identifier := pyLower (pyStrip r.identifier) = "y"
              required := pyLower (pyStrip r.required_field) = "y"
              branching_logic := pyStrip r.branching_logic
              matrix_group := pyStrip r.matrix_group_name
              raw := r } }

end DD

namespace DD

/-! ## `dd_val.checks`: the check engine -/

/-- `dd_val.checks.Finding` (field `variable` is named `var`, `where` is
named `whereLoc`). -/
structure Finding where
  type : String
  var : String
  severity : String
  whereLoc : List (String × String)
  expected : Option Json := none
  observed : Option Json := none
  examples : Option (List String) := none
  suggestion : Option String := none
  rows_affected : Option Nat := none
  deriving Repr, BEq

/-- `_checkbox_expected_cols`. -/
def checkboxExpectedCols (f : DictField) : List String :=
  f.choices.map fun p => f.var ++ "___" ++ p.1

/-- `_RENAME_HINTS`. -/
def renameHints : List (String × List String) :=
  [("bp_sys", ["sbp"]), ("bp_dia", ["dbp"]), ("height_cm", ["ht_cm", "heightcm"])]

/-- `REDCAP_META_COLUMNS` (a Python set literal; held here in literal order,
consumers sort or test membership only). -/
def redcapMetaColumns : List String :=
  ["redcap_event_name", "redcap_repeat_instrument", "redcap_repeat_instance"]

/-- String sort, embedding Python `sorted` on strings (code-point
lexicographic in both). -/
def pySorted (l : List String) : List String :=
  l.insertionSort (· ≤ ·)

/-- `check_columns`. -/
def check_columns (dd : Dictionary) (dataset_cols : List String) : List Finding :=
  let covered_by_rename : List String :=
    (renameHints.filter fun p =>
      (byVar dd p.1).isSome && p.2.any (fun h => dataset_cols.contains h)).map (·.1)
  let missing : List Finding :=
    dd.fields.flatMap fun f =>
      if f.field_type = "checkbox" then
        (checkboxExpectedCols f).filterMap fun col =>
          if dataset_cols.contains col then none
          else some { type := "missing_column_in_data", var := col,
                      severity := "error", whereLoc := [("dataset_column", col)] }
      else if !dataset_cols.contains f.var && !covered_by_rename.contains f.var then
        [{ type := "missing_column_in_data", var := f.var,
           severity := "error", whereLoc := [("dataset_column", f.var)] }]
      else []
  let allowed : List String :=
    (dd.fields.flatMap fun f =>
      if f.field_type = "checkbox" then checkboxExpectedCols f else [f.var]) ++
    (renameHints.flatMap fun p => if (byVar dd p.1).isSome then p.2 else []) ++
    redcapMetaColumns
  let checkbox_vars : List String :=
    (dd.fields.filter (fun f => f.field_type = "checkbox")).map (·.var)
  let extras : List Finding :=
    dataset_cols.filterMap fun col =>
      if checkbox_vars.contains (splitFirst "___" col) then none
      else if !allowed.contains col then
        some { type := "extra_column_in_data", var := col,
               severity := "warn", whereLoc := [("dataset_column", col)] }
      else none
  missing ++ extras

/-- `_collect_values` for one requested column (the dict of lists in the
source is keyed by the requested columns; a lookup of a requested column
equals this).  Dataset streaming is capped at 50000 rows. -/
def collectCol (rows : List DataRow) (c : String) : List String :=
  (rows.take 50000).map fun r => pyStrip (rowGet r c)

/-- `_examples`: the first up-to-5 values satisfying the predicate. -/
def examplesUpTo (values : List String) (p : String → Bool) : List String :=
  (values.filter p).take 5

/-- `check_checkbox_mismatch`. -/
def check_checkbox_mismatch (dd : Dictionary) (dataset_cols : List String) : List Finding :=
  dd.fields.flatMap fun f =>
    if f.field_type ≠ "checkbox" then []
    else
      let expected := checkboxExpectedCols f
      let added := pySorted ((dataset_cols.dedup).filter fun c =>
        startsWithStr (f.var ++ "___") c && !expected.contains c)
      let missing := pySorted (expected.filter fun c => !dataset_cols.contains c)
      if added ≠ [] || missing ≠ [] then
        let obs : List (String × Json) :=
          (if added ≠ [] then [("observed_added", Json.arr (added.map Json.str))] else []) ++
          (if missing ≠ [] then [("expected_missing", Json.arr (missing.map Json.str))] else [])
        [{ type := "checkbox_expansion_mismatch", var := f.var, severity := "error",
           whereLoc := [("dataset_column", f.var)], observed := some (Json.obj obs) }]
      else []

/-- `_build_rename_map`. -/
def buildRenameMap (dd : Dictionary) (dataset_cols : List String) : List (String × String) :=
  renameHints.filterMap fun p =>
    if (byVar dd p.1).isSome && !dataset_cols.contains p.1 then
      (p.2.find? (fun h => dataset_cols.contains h)).map fun h => (p.1, h)
    else none

/-- The `(var_to_dscol, expected)` tables of `check_types`, fused into one
insertion-ordered dict with `(dataset column, validation)` values; both
source dicts are written at the same keys in the same order. -/
def checkTypesEntries (dd : Dictionary) (dataset_cols : List String) :
    List (String × String × String) :=
  let rename_map := buildRenameMap dd dataset_cols
  (dd.fields.foldl
    (fun acc f =>
      if f.field_type = "text" &&
         (f.validation = "integer" || f.validation = "number" || f.validation = "date_ymd" ||
          f.validation = "date_mdy" || f.validation = "datetime_ymd") then
        if dataset_cols.contains f.var then
          pyDictInsert f.var (f.var, f.validation) acc
        else
          match (rename_map.find? (fun p => p.1 = f.var)) with
          | some p => pyDictInsert f.var (p.2, f.validation) acc
          | none => acc
      else acc)
    []).map fun p => (p.1, p.2.1, p.2.2)

/-- `check_types`. -/
def check_types (dd : Dictionary) (rows : List DataRow) (dataset_cols : List String) :
    List Finding :=
  (checkTypesEntries dd dataset_cols).flatMap fun e =>
    let va := e.1
    let dscol := e.2.1
    let exp := e.2.2
    let vlist := (collectCol rows dscol).filter (fun v => v ≠ "")
    if vlist.isEmpty then []
    else
      let n := vlist.length
      if exp = "integer" then
        let ok := vlist.countP (fun v => is_int v)
        if (ok : Rat) / n < 95/100 then
          [{ type := "type_mismatch", var := va, severity := "error",
             whereLoc := [("dataset_column", dscol)],
             expected := some (Json.str "numeric"), observed := some (Json.str "string"),
             examples := some (examplesUpTo vlist (fun v => !is_int v)),
             rows_affected := some (n - ok) }]
        else []
      else if exp = "number" then
        let ok := vlist.countP (fun v => is_num v)
        if (ok : Rat) / n < 95/100 then
          [{ type := "type_mismatch", var := va, severity := "error",
             whereLoc := [("dataset_column", dscol)],
             expected := some (Json.str "numeric"), observed := some (Json.str "string"),
             examples := some (examplesUpTo vlist (fun v => !is_num v)),
             rows_affected := some (n - ok) }]
        else []
      else if exp = "date_ymd" || exp = "datetime_ymd" then
        let ok := vlist.countP (fun v => is_date_ymd v)
        if (ok : Rat) / n < 95/100 then
          let observed := if vlist.countP (fun v => guess_date_format v = "date_mdy") > 0
            then "date_mdy" else "string"
          [{ type := "type_mismatch", var := va, severity := "error",
             whereLoc := [("dataset_column", dscol)],
             expected := some (Json.str "date_ymd"), observed := some (Json.str observed),
             examples := some (examplesUpTo vlist (fun v => guess_date_format v ≠ exp)),
             rows_affected := some (n - ok) }]
        else []
      else []

/-- The `to_check` table of `check_domains`. -/
def domainsToCheck (dd : Dictionary) (dataset_cols : List String) :
    List (String × List String) :=
  dd.fields.filterMap fun f =>
    if (f.field_type = "radio" || f.field_type = "dropdown" ||
        f.field_type = "yesno" || f.field_type = "truefalse") &&
       dataset_cols.contains f.var then
      some (f.var, f.choices.map (·.1))
    else none

/-- `check_domains`. -/
def check_domains (dd : Dictionary) (rows : List DataRow) (dataset_cols : List String) :
    List Finding :=
  (domainsToCheck dd dataset_cols).flatMap fun e =>
    let col := e.1
    let allowed := e.2
    let vals := collectCol rows col
    let vset := (vals.filter (fun v => v ≠ "")).dedup
    let unexpected := pySorted (vset.filter fun v => !allowed.contains v)
    if unexpected ≠ [] then
      let expected_pairs := (choicesOf dd col).map fun p => p.1 ++ "=" ++ p.2
      [{ type := "domain_mismatch", var := col, severity := "error",
         whereLoc := [("dataset_column", col)],
         expected := some (Json.arr (expected_pairs.map Json.str)),
         observed := some (Json.arr (unexpected.map Json.str)),
         examples := some (unexpected.take 5),
         rows_affected := some (vals.countP fun v => unexpected.contains v) }]
    else []

/-- The duplicate counter of `check_primary_key`: streams values, tracks seen
non-empty keys, counts repeats per value in first-repeat order
(`collections.Counter` insertion order). -/
def pkDupCounts (vals : List String) : List (String × Nat) :=
  (vals.foldl
    (fun (st : List String × List (String × Nat)) v =>
      if v = "" then st
      else if st.1.contains v then (st.1, pyDictInsert v (pyDictGet st.2 v 0 + 1) st.2)
      else (st.1 ++ [v], st.2))
    ([], [])).2

/-- `Counter.most_common(k)`: stably sort by count descending, take `k`. -/
def mostCommon (counts : List (String × Nat)) (k : Nat) : List (String × Nat) :=
  (counts.insertionSort (fun a b => a.2 ≥ b.2)).take k

/-- `check_primary_key` (not reachable from the CLI driver; see
`runChecks`). -/
def check_primary_key (dd : Dictionary) (rows : List DataRow) (dataset_cols : List String) :
    List Finding :=
  let pk : Option String :=
    if dataset_cols.contains "record_id" then some "record_id"
    else (dd.fields.head?).map (·.var)
  match pk with
  | none => []
  | some pk =>
    if !dataset_cols.contains pk then
      [{ type := "missing_primary_key_column", var := pk, severity := "error",
         whereLoc := [("dataset_column", pk)] }]
    else
      let dups := pkDupCounts (rows.map fun r => pyStrip (rowGet r pk))
      if dups ≠ [] then
        [{ type := "duplicate_primary_key_values", var := pk, severity := "error",
           whereLoc := [("dataset_column", pk)],
           examples := some ((mostCommon dups 5).map (·.1)),
           rows_affected := some (dups.map (·.2)).sum }]
      else []

/-- `check_required_fields` (not reachable from the CLI driver; see
`runChecks`). -/
def check_required_fields (dd : Dictionary) (rows : List DataRow)
    (dataset_cols : List String) : List Finding :=
  let req_vars := (dd.fields.filter fun f => f.required && dataset_cols.contains f.var).map (·.var)
  req_vars.flatMap fun va =>
    let col_vals := collectCol rows va
    if col_vals.isEmpty then []
    else
      let total := col_vals.length
      let missing := col_vals.countP (fun v => pyStrip v = "")
      if total ≥ 20 && (missing : Rat) / total ≥ 5/100 then
        [{ type := "required_field_missing_rate_high", var := va, severity := "error",
           whereLoc := [("dataset_column", va)],
           observed := some (Json.obj [("missing_rate", Json.num (round3 ((missing : Rat) / total)))]),
           rows_affected := some missing }]
      else []

/-- `check_missingness_spike`. -/
def check_missingness_spike (rows : List DataRow) (dataset_cols : List String) : List Finding :=
  dataset_cols.filterMap fun col =>
    let vals := collectCol rows col
    let total := vals.length
    let empties := vals.countP (fun v => v = "")
    if total ≥ 50 && (empties : Rat) / total ≥ 70/100 then
      some { type := "missingness_spike", var := col, severity := "warn",
             whereLoc := [("dataset_column", col)], rows_affected := some empties }
    else none

end DD

namespace DD

/-- A single-quote character as a string (used inside source message
literals). -/
def sq : String := ⟨[ '\x27' ]⟩

/-- Value of a run of decimal digits. -/
def digitsVal (l : List Char) : Nat :=
  l.foldl (fun acc c => acc * 10 + (c.toNat - 48)) 0

/-- Embedding of Python `float(s)` on finite decimal literals, returning the
exact rational value (binary-float rounding is below the granularity any
comparison in this code distinguishes; see the header note). -/
def pyFloatParse (s : String) : Option Rat :=
  let t := stripList s.data
  let sgn : Rat := match t with
    | '-' :: _ => -1
    | _ => 1
  let t := dropSign t
  let intPart := t.takeWhile isDigitChar
  let rest := t.drop intPart.length
  let withExp (base : Rat) (e : List Char) : Option Rat :=
    let esgn : Int := match e with
      | '-' :: _ => -1
      | _ => 1
    let e := dropSign e
    if e.isEmpty || !e.all isDigitChar then none
    else some (sgn * base * (10 : Rat) ^ (esgn * digitsVal e))
  match rest with
  | [] => if intPart.isEmpty then none else some (sgn * digitsVal intPart)
  | '.' :: r =>
    let frac := r.takeWhile isDigitChar
    let rest2 := r.drop frac.length
    if intPart.isEmpty && frac.isEmpty then none
    else
      let base : Rat := (digitsVal intPart : Rat) + (digitsVal frac : Rat) / (10 : Rat) ^ frac.length
      match rest2 with
      | [] => some (sgn * base)
      | 'e' :: e => withExp base e
      | 'E' :: e => withExp base e
      | _ => none
  | 'e' :: e => if intPart.isEmpty then none else withExp (digitsVal intPart) e
  | 'E' :: e => if intPart.isEmpty then none else withExp (digitsVal intPart) e
  | _ => none

/-- First whitespace-separated token: `s.split()[0]` (total, returning ""
on an all-whitespace remainder the fixtures never produce). -/
def firstWsToken (l : List Char) : String :=
  ⟨(l.dropWhile pyIsSpace).takeWhile (fun c => !pyIsSpace c)⟩

/-- `check_unit_anomaly`. -/
def check_unit_anomaly (dd : Dictionary) (rows : List DataRow) (dataset_cols : List String) :
    List Finding :=
  let note_units : List (String × String) :=
    dd.fields.foldl
      (fun acc f =>
        let note := pyLower f.raw.field_note
        if strContainsSub "units=" note && dataset_cols.contains f.var then
          let unit := firstWsToken ((splitRestList "units=".data note.data).getD [])
          pyDictInsert f.var unit acc
        else acc)
      []
  note_units.flatMap fun e =>
    let col := e.1
    let unit := e.2
    let vnums := (collectCol rows col).filterMap fun v =>
      if v ≠ "" then pyFloatParse v else none
    if vnums.length < 20 then []
    else
      let small := vnums.countP (fun x => x < 100)
      let large := vnums.countP (fun x => 100 ≤ x)
      if unit = "cm" && (small : Rat) / vnums.length ≥ 5/100 &&
         (large : Rat) / vnums.length ≥ 5/10 then
        [{ type := "unit_anomaly", var := col, severity := "warn",
           whereLoc := [("dataset_column", col)],
           expected := some (Json.obj [("unit", Json.str unit)]),
           observed := some (Json.obj [("note", Json.str "subset appears inches")]),
           rows_affected := some small }]
      else []

/-- `check_branching`. -/
def check_branching (dd : Dictionary) (rows : List DataRow) (dataset_cols : List String) :
    List Finding :=
  if !(dataset_cols.contains "sex" && dataset_cols.contains "pregnant") then []
  else
    let cond := match byVar dd "pregnant" with
      | some f => f.branching_logic
      | none => ""
    if !strContainsSub "[sex]" cond then []
    else
      let s := collectCol rows "sex"
      let p := collectCol rows "pregnant"
      let affected := (s.zip p).countP fun q => q.1 = "0" && q.2 = "1"
      if affected ≠ 0 then
        [{ type := "branching_mismatch", var := "pregnant", severity := "warn",
           whereLoc := [("dataset_column", "pregnant")],
           expected := some (Json.obj [("condition", Json.str ("[sex] = " ++ sq ++ "1" ++ sq))]),
           rows_affected := some affected }]
      else []

/-- `check_matrix_consecutive`. -/
def check_matrix_consecutive (dd : Dictionary) : List Finding :=
  let idx : List (String × List Nat) :=
    ((dd.fields.zip (List.range dd.fields.length)).foldl
      (fun acc fi =>
        if fi.1.matrix_group ≠ "" then
          pyDictInsert fi.1.matrix_group (pyDictGet acc fi.1.matrix_group [] ++ [fi.2]) acc
        else acc)
      [])
  idx.flatMap fun e =>
    let positions := e.2.insertionSort (· ≤ ·)
    if positions.isEmpty then []
    else
      let consecutive := (positions.zip positions.tail).all fun q => q.1 + 1 = q.2
      if !consecutive then
        [{ type := "matrix_nonconsecutive", var := e.1, severity := "warn",
           whereLoc := [("matrix_group", e.1)] }]
      else []

/-- `check_rename_drift`. -/
def check_rename_drift (dd : Dictionary) (dataset_cols : List String) : List Finding :=
  renameHints.flatMap fun p =>
    if (byVar dd p.1).isSome && !dataset_cols.contains p.1 then
      match p.2.find? (fun h => dataset_cols.contains h) with
      | some h =>
        [{ type := "rename_drift", var := p.1, severity := "warn",
           whereLoc := [("dataset_column", h)],
           observed := some (Json.obj [("new", Json.str h)]) }]
      | none => []
    else []

/-- `detect_export_mode_labels` (not reachable from the CLI driver; see
`runChecks`). -/
def detect_export_mode_labels (dd : Dictionary) (rows : List DataRow)
    (dataset_cols : List String) : Bool × List Finding :=
  let cat_fields := dd.fields.filter fun f =>
    (f.field_type = "radio" || f.field_type = "dropdown" ||
     f.field_type = "yesno" || f.field_type = "truefalse") && dataset_cols.contains f.var
  if cat_fields.isEmpty then (false, [])
  else
    let st := cat_fields.foldl
      (fun (st : Nat × Nat × Nat × Nat × Nat) f =>
        let (total_code, total_label, total_nonempty, label_majority_fields, fields_checked) := st
        let vlist := (collectCol rows f.var).filter (fun v => v ≠ "")
        if vlist.isEmpty then st
        else
          let codes := f.choices.map (·.1)
          let labels := f.choices.map (·.2)
          let n_code := vlist.countP (fun v => codes.contains v)
          let n_label := vlist.countP (fun v => labels.contains v)
          let maj := if vlist.length > 0 && (n_label : Rat) / vlist.length ≥ 8/10 &&
              n_label > n_code then 1 else 0
          (total_code + n_code, total_label + n_label, total_nonempty + vlist.length,
           label_majority_fields + maj, fields_checked + 1))
      (0, 0, 0, 0, 0)
    let (_, total_label, total_nonempty, label_majority_fields, fields_checked) := st
    if fields_checked = 0 then (false, [])
    else
      let label_rate : Rat := (total_label : Rat) / (max 1 total_nonempty)
      if label_rate ≥ 6/10 && label_majority_fields ≥ 2 && total_label ≥ 20 then
        (true,
          [{ type := "export_mode_labels_detected", var := "dataset", severity := "info",
             whereLoc := [("mode", "labels")],
             observed := some (Json.obj
               [("fields_checked", Json.num fields_checked),
                ("label_majority_fields", Json.num label_majority_fields),
                ("label_rate", Json.num (round3 label_rate))]),
             suggestion := some ("Re-export with " ++ sq ++ "raw" ++ sq ++
               " (codes) or map labels to codes.") }])
      else (false, [])

/-- `collections.Counter` of a list, in first-occurrence order. -/
def counterOf (l : List String) : List (String × Nat) :=
  l.foldl (fun acc v => pyDictInsert v (pyDictGet acc v 0 + 1) acc) []

/-- `check_longitudinal_context` (not reachable from the CLI driver; see
`runChecks`). -/
def check_longitudinal_context (rows : List DataRow) (dataset_cols : List String) :
    List Finding :=
  let present := pySorted (redcapMetaColumns.filter fun c => dataset_cols.contains c)
  if present.isEmpty then []
  else
    let cols_to_collect := (["redcap_event_name", "redcap_repeat_instrument",
      "redcap_repeat_instance"]).filter (fun c => present.contains c)
    let events := if cols_to_collect.contains "redcap_event_name" then
      collectCol rows "redcap_event_name" else []
    let ev_counts := counterOf (events.filter fun e => e ≠ "")
    let top_events := (mostCommon ev_counts 3).map fun p =>
      Json.obj [("event", Json.str p.1), ("n", Json.num p.2)]
    let total := events.length
    let rep_inst := if cols_to_collect.contains "redcap_repeat_instrument" then
      collectCol rows "redcap_repeat_instrument" else []
    let rep_idx := if cols_to_collect.contains "redcap_repeat_instance" then
      collectCol rows "redcap_repeat_instance" else []
    let repeat_rows :=
      if rep_inst ≠ [] || rep_idx ≠ [] then
        (List.range (max rep_inst.length rep_idx.length)).countP fun i =>
          rep_inst.getD i "" ≠ "" || rep_idx.getD i "" ≠ ""
      else 0
    let obs := Json.obj
      [("distinct_events", Json.num ev_counts.length),
       ("top_events", Json.arr top_events),
       ("repeat_rows", Json.num repeat_rows),
       ("repeat_rate", Json.num (if total ≠ 0 then round3 ((repeat_rows : Rat) / total) else 0))]
    [{ type := "longitudinal_context_detected", var := "dataset", severity := "info",
       whereLoc := [("columns", String.intercalate "," present)], observed := some obs }]

/-- The check sequence the CLI driver `dd_val.cli.main` actually runs, in
source order (cli.py lines 137-147).  Note that `check_primary_key`,
`check_required_fields`, `detect_export_mode_labels` and
`check_longitudinal_context` are defined in `dd_val.checks` but are not
invoked here. -/
def runChecks (dd : Dictionary) (dataset_cols : List String) (rows : List DataRow) :
    List Finding :=
  check_columns dd dataset_cols ++
  check_rename_drift dd dataset_cols ++
  check_checkbox_mismatch dd dataset_cols ++
  check_types dd rows dataset_cols ++
  check_domains dd rows dataset_cols ++
  check_unit_anomaly dd rows dataset_cols ++
  check_missingness_spike rows dataset_cols ++
  check_branching dd rows dataset_cols ++
  check_matrix_consecutive dd

end DD

namespace DD

/-! ## `dd_val.cli`: driver and since-last-run resolver

Paths are modelled as normalized segment lists; the file system is an
abstract record (existence test, directory test, the parsed `.prev` pointer
content for the current run directory, and the parsed content of a previous
findings file).  `pathlib` parsing and JSON reading are the I/O boundary. -/

abbrev FPath := List String

/-- Parsed content of a `.prev` pointer file: an absolute or relative
segment path (after `read_text().strip()` and `Path(raw)` parsing). -/
structure PtrContent where
  isAbs : Bool
  segs : FPath

/-- The previous findings document as far as the driver reads it: the
`summary.dataset_columns` list and the `summary.dict_choices` mapping
(absent summary entries are the empty defaults `or {}` / `or []`
produce). -/
structure PrevSummary where
  dataset_columns : List String
  dict_choices : List (String × List String)

/-- Abstract file system for the resolver.  `prevFile p`: `none` when the
path does not exist; `some none` when `_read_prev` fails (unreadable or
malformed JSON) or the document is not a JSON object; `some (some s)` when
it is an object with summary `s`.  `prevPtr`: the parsed `.prev` content in
the current run directory, `none` when the file is missing, unreadable or
blank. -/
structure FS where
  pathExists : FPath → Bool
  isDir : FPath → Bool
  prevPtr : Option PtrContent
  prevFile : FPath → Option (Option PrevSummary)

/-- Does the decomposition `name = base ++ "_v" ++ digits` (nonempty digits
reaching the end, nonempty base) exist?  This matches the greedy regex
`^(?P<base>.+)_v(?P<ver>\d+)$` because the decomposition, when it exists,
is unique: the digit run must be the maximal digit suffix (a shorter one
would be preceded by a digit, not by `v`). -/
def parseVSuffix (name : String) : Option (String × Nat) :=
  let rev := name.data.reverse
  let ds := rev.takeWhile isDigitChar
  if ds.isEmpty then none
  else
    match rev.drop ds.length with
    | c1 :: c2 :: rest =>
      if c1 = 'v' ∧ c2 = '_' ∧ ¬rest.isEmpty then some (⟨rest.reverse⟩, digitsVal ds.reverse)
      else none
    | _ => none

/-- The regex `^(?P<base>.+_perturbed)_v(?P<ver>\d+)$`: as `parseVSuffix`
but the base must consist of at least one character followed by
`_perturbed`. -/
def parsePerturbedV (name : String) : Option (String × Nat) :=
  (parseVSuffix name).bind fun p =>
    if "_perturbed".data.isSuffixOf p.1.data && decide (10 < p.1.data.length) then some p
    else none

/-- The regex `^v(?P<ver>\d+)$`. -/
def parseBareV (name : String) : Option Nat :=
  match name.data with
  | c :: rest =>
    if c = 'v' ∧ ¬rest.isEmpty ∧ rest.all isDigitChar then some (digitsVal rest) else none
  | _ => none

/-- `dd_val.cli._infer_prev_findings`. -/
def infer_prev_findings (fs : FS) (cur_dir : FPath) : Option FPath :=
  let name : String := cur_dir.getLastD ""
  let parent := cur_dir.dropLast
  match parsePerturbedV name with
  | some p =>
    let cand := parent ++
      [(if p.2 = 2 then p.1 else p.1 ++ "_v" ++ intStr ((p.2 : Int) - 1)), "findings.json"]
    if fs.pathExists cand then some cand else none
  | none =>
    match parseVSuffix name with
    | some p =>
      if p.2 > 1 then
        let cand := parent ++ [p.1 ++ "_v" ++ intStr ((p.2 : Int) - 1), "findings.json"]
        if fs.pathExists cand then some cand else none
      else
        -- the source falls through to the bare `^v\d+$` regex, which cannot
        -- match a name that the generic `_v<N>` regex already matched
        match parseBareV name with
        | some ver =>
          if ver > 1 then
            let cand := parent ++ ["v" ++ intStr ((ver : Int) - 1), "findings.json"]
            if fs.pathExists cand then some cand else none
          else none
        | none => none
    | none =>
      match parseBareV name with
      | some ver =>
        if ver > 1 then
          let cand := parent ++ ["v" ++ intStr ((ver : Int) - 1), "findings.json"]
          if fs.pathExists cand then some cand else none
        else none
      | none => none

/-- `dd_val.cli._infer_prev_from_pointer`. -/
def infer_prev_from_pointer (fs : FS) (cur_dir : FPath) : Option FPath :=
  match fs.prevPtr with
  | none => none
  | some t =>
    let target := if t.isAbs then t.segs else cur_dir ++ t.segs
    let target := if fs.isDir target then target ++ ["findings.json"] else target
    if fs.pathExists target then some target else none

/-- The previous-findings resolution in `main` (cli.py lines 114-119):
an explicit `--prev` wins; otherwise, unless `--no-prev`, the `.prev`
pointer is tried and then folder-naming inference. -/
def resolvePrev (explicit : Option FPath) (no_prev : Bool) (fs : FS) (cur_dir : FPath) :
    Option FPath :=
  match explicit with
  | some p => some p
  | none =>
    if no_prev then none
    else
      match infer_prev_from_pointer fs cur_dir with
      | some p => some p
      | none => infer_prev_findings fs cur_dir

/-- One record of the output findings list of `main`: either a converted
check-engine `Finding` or one of the two since-last-run dict records the
driver appends. -/
inductive OutFinding where
  | gen : Finding → OutFinding
  | extraSince : String → Nat → OutFinding
  | domainSince : String → List String → OutFinding
  deriving Repr, BEq

/-- The `dict_choices` entry of `build_summary`: each declared variable
(first occurrence order, last-row choices like the `choices` index) mapped
to its `code=label` strings. -/
def summaryDictChoices (dd : Dictionary) : List (String × List String) :=
  ((dd.fields.map (·.var)).dedup).map fun v =>
    (v, (choicesOf dd v).map fun p => p.1 ++ "=" ++ p.2)

/-- The findings list `main` produces (cli.py lines 128-198): run the check
sequence, apply the since-last-run suppression of generic
`extra_column_in_data` findings on new columns, then append the
`extra_column_since_last_run` and `domain_mismatch_since_last_run`
records when a previous findings document resolves. -/
def mainFindings (dd : Dictionary) (dataset_cols : List String) (rows : List DataRow)
    (prev : Option FPath) (fs : FS) : List OutFinding :=
  let n_rows := rows.length
  let prevSummary : Option PrevSummary :=
    match prev with
    | some p =>
      if fs.pathExists p then
        match fs.prevFile p with
        | some (some s) => some s
        | _ => none
      else none
    | none => none
  let prev_cols : List String :=
    match prevSummary with
    | some s => s.dataset_columns
    | none => []
  let findings := runChecks dd dataset_cols rows
  let findings :=
    if prev_cols ≠ [] then
      let new_cols := dataset_cols.filter fun c => !prev_cols.contains c
      findings.filter fun f => !(f.type = "extra_column_in_data" && new_cols.contains f.var)
    else findings
  let out := findings.map OutFinding.gen
  match prevSummary with
  | none => out
  | some s =>
    let extra := (dataset_cols.filter fun c => !s.dataset_columns.contains c).map fun c =>
      OutFinding.extraSince c n_rows
    let dom := (summaryDictChoices dd).filterMap fun e =>
      let prev_c := pyDictGet s.dict_choices e.1 []
      let added := pySorted ((e.2.dedup).filter fun c => !prev_c.contains c)
      if added ≠ [] then some (OutFinding.domainSince e.1 added) else none
    out ++ extra ++ dom

end DD

namespace DD

/-! ## `dd_eval.score`: scoring harness -/

/-- JSON string escaping (quote and backslash; the payloads this program
serializes contain no control characters). -/
def jsonEscape (s : String) : String :=
  s.data.foldl
    (fun acc c =>
      if c = '"' then acc ++ "\\\""
      else if c = '\\' then acc ++ "\\\\"
      else acc ++ String.singleton c) ""

/-- Number rendering for `json.dumps` (integral rationals render like Python
ints; scoring keys in this code base never serialize non-integral numbers,
so the fallback rendering is unreached by the claims). -/
def jsonNumRender (q : Rat) : String :=
  if q.den = 1 then intStr q.num
  else intStr q.num ++ "/" ++ natStr q.den

/-- `json.dumps(x, sort_keys=True)` with the default separators.  Object
members are rendered and then ordered by key; since the sort compares keys
only, this equals sorting the members first and then rendering. -/
def dumps : Json → String
  | .null => "null"
  | .str s => "\"" ++ jsonEscape s ++ "\""
  | .num q => jsonNumRender q
  | .arr xs => "[" ++ String.intercalate ", " (xs.attach.map fun x => dumps x.1) ++ "]"
  | .obj kvs =>
    let rendered := kvs.attach.map fun x => (x.1.1, dumps x.1.2)
    let sorted := rendered.insertionSort fun a b => a.1 ≤ b.1
    "\x7b" ++ String.intercalate ", "
      (sorted.map fun p => "\"" ++ jsonEscape p.1 ++ "\": " ++ p.2) ++ "\x7d"
decreasing_by
  · simp_wf
    have h := List.sizeOf_lt_of_mem x.2
    omega
  · simp_wf
    obtain ⟨⟨k, v⟩, hm⟩ := x
    have h := List.sizeOf_lt_of_mem hm
    simp at h ⊢
    omega

/-- An issue record as the scorer reads it (gold record or finding): the
`type` and `variable` strings (`.get` default ""), and the optional
`expected` / `observed` payloads (`none` = key absent). -/
structure Issue where
  type : String := ""
  var : String := ""
  expected : Option Json := none
  observed : Option Json := none
  deriving Repr, BEq

/-- `dd_eval.score._key`. -/
def scoreKey (mode : String) (i : Issue) : String × String :=
  if mode = "strict" then
    let e := match i.expected with
      | some j => dumps j
      | none => ""
    let o := match i.observed with
      | some j => dumps j
      | none => ""
    (i.type, i.var ++ "|" ++ e ++ "|" ++ o)
  else
    (i.type, i.var)

/-- One run directory as the scorer sees it after loading. -/
structure Run where
  gold : List Issue
  findings : List Issue

def goldKeys (mode : String) (r : Run) : Finset (String × String) :=
  (r.gold.map (scoreKey mode)).toFinset

def predKeys (mode : String) (r : Run) : Finset (String × String) :=
  (r.findings.map (scoreKey mode)).toFinset

/-- Per-run true positives of one defect type.  The source intersects the
second key components per type; since the first component of every selected
key equals the type, filtering the full key pairs gives the same count. -/
def tpRun (mode t : String) (r : Run) : Nat :=
  ((goldKeys mode r ∩ predKeys mode r).filter fun k => k.1 = t).card

def fpRun (mode t : String) (r : Run) : Nat :=
  ((predKeys mode r \ goldKeys mode r).filter fun k => k.1 = t).card

def fnRun (mode t : String) (r : Run) : Nat :=
  ((goldKeys mode r \ predKeys mode r).filter fun k => k.1 = t).card

/-- The accumulators `tp[t]`, `fp[t]`, `fn[t]` over all runs. -/
def tpAgg (mode t : String) (runs : List Run) : Nat := (runs.map (tpRun mode t)).sum

def fpAgg (mode t : String) (runs : List Run) : Nat := (runs.map (fpRun mode t)).sum

def fnAgg (mode t : String) (runs : List Run) : Nat := (runs.map (fnRun mode t)).sum

/-- `p = tp[t] / (tp[t] + fp[t]) if (tp[t] + fp[t]) else 0.0`. -/
def precisionOf (mode t : String) (runs : List Run) : Rat :=
  let tp := tpAgg mode t runs
  let fp := fpAgg mode t runs
  if tp + fp = 0 then 0 else (tp : Rat) / (tp + fp)

/-- `r = tp[t] / (tp[t] + fn[t]) if (tp[t] + fn[t]) else 0.0`. -/
def recallOf (mode t : String) (runs : List Run) : Rat :=
  let tp := tpAgg mode t runs
  let fn := fnAgg mode t runs
  if tp + fn = 0 then 0 else (tp : Rat) / (tp + fn)

/-- `f1 = 2*p*r/(p+r) if (p+r) else 0.0`. -/
def f1Of (mode t : String) (runs : List Run) : Rat :=
  let p := precisionOf mode t runs
  let r := recallOf mode t runs
  if p + r = 0 then 0 else 2 * p * r / (p + r)

/-- The defect types the metric loop ranges over: every type touched by any
accumulator, sorted. -/
def typesOf (mode : String) (runs : List Run) : List String :=
  pySorted ((runs.flatMap fun r =>
    ((r.gold.map (scoreKey mode) ++ r.findings.map (scoreKey mode)).map (·.1))).dedup)

/-- The metrics mapping `score_corpus` builds from loaded runs. -/
def metricsOf (mode : String) (runs : List Run) : List (String × Rat × Rat × Rat) :=
  (typesOf mode runs).map fun t =>
    (t, precisionOf mode t runs, recallOf mode t runs, f1Of mode t runs)

/-! ### File loading (`_load_gold_and_findings`, `_read_prev`) -/

/-- The state of one JSON file on disk as the loaders can encounter it. -/
inductive FileState (α : Type) where
  | missing : FileState α
  | malformed : FileState α
  | parsed : α → FileState α

/-- A findings document: either a bare JSON list or an object whose
`findings` member (absent defaults to the empty list) holds the list. -/
inductive FindingsDoc where
  | jlist : List Issue → FindingsDoc
  | jobj : Option (List Issue) → FindingsDoc

/-- `dd_eval.score._load_gold_and_findings`: a missing file is treated as
the empty list, but `json.loads` of malformed content raises and nothing in
the scorer catches it (modelled as `Except.error`). -/
def load_gold_and_findings (g : FileState (List Issue)) (f : FileState FindingsDoc) :
    Except Unit (List Issue × List Issue) := do
  let gold ← match g with
    | .missing => pure []
    | .malformed => throw ()
    | .parsed l => pure l
  let findings ← match f with
    | .missing => pure ([] : List Issue)
    | .malformed => throw ()
    | .parsed (.jlist l) => pure l
    | .parsed (.jobj fl) => pure (fl.getD [])
  return (gold, findings)

/-- `score_corpus` over the discovered run directories (directory discovery
is the I/O boundary; the order of runs does not matter to the sums). -/
def score_corpus (mode : String)
    (runfiles : List (FileState (List Issue) × FileState FindingsDoc)) :
    Except Unit (List (String × Rat × Rat × Rat)) := do
  let mut runs : List Run := []
  for rf in runfiles do
    let (gold, findings) ← load_gold_and_findings rf.1 rf.2
    runs := runs ++ [⟨gold, findings⟩]
  return metricsOf mode runs

/-- `dd_val.cli._read_prev`: any exception (missing file, unreadable file,
malformed JSON) yields `None`. -/
def read_prev (st : FileState α) : Option α :=
  match st with
  | .parsed v => some v
  | _ => none

end DD

namespace DD

/-! ## `dd_eval.synth`: the clean fixture generator

`build_dictionary` takes its two `rng.random() < p` draws (optional slider
field, optional blood-pressure fields) as Booleans.  `generate_dataset`
takes one abstract draw record per row; see the header note on RNG
modelling. -/

/-- `build_dictionary(project_idx, rng)`.  The project index does not
influence the rows; the two RNG gates are the Boolean parameters. -/
def build_dictionary (hasSlider hasBP : Bool) : List DictRow :=
  [{ variable_name := "record_id", form_name := "enrollment", section_header := "Demographics",
     field_type := "text", field_label := "Record ID",
     text_validation_type_or_show_slider_number := "integer",
     identifier := "y", required_field := "y" },
   { variable_name := "sex", form_name := "enrollment", field_type := "radio",
     field_label := "Sex at birth",
     choices_calculations_or_slider_labels := "0,Male | 1,Female", required_field := "y" },
   { variable_name := "pregnant", form_name := "enrollment", field_type := "yesno",
     field_label := "Currently pregnant?",
     branching_logic := "[sex] = " ++ sq ++ "1" ++ sq },
   { variable_name := "age", form_name := "enrollment", field_type := "text",
     field_label := "Age (years)",
     text_validation_type_or_show_slider_number := "integer",
     text_validation_min := "0", text_validation_max := "120", required_field := "y" },
   { variable_name := "height_cm", form_name := "enrollment", field_type := "text",
     field_label := "Height (cm)", field_note := "units=cm",
     text_validation_type_or_show_slider_number := "number",
     text_validation_min := "50", text_validation_max := "250" },
   { variable_name := "weight_kg", form_name := "enrollment", field_type := "text",
     field_label := "Weight (kg)", field_note := "units=kg",
     text_validation_type_or_show_slider_number := "number",
     text_validation_min := "2", text_validation_max := "400" },
   { variable_name := "bmi", form_name := "enrollment", field_type := "calc",
     field_label := "BMI",
     choices_calculations_or_slider_labels := "([weight_kg]/(( [height_cm]/100)^(2)))" },
   { variable_name := "symptoms", form_name := "enrollment", field_type := "checkbox",
     field_label := "Symptoms",
     choices_calculations_or_slider_labels := "1,Cough | 2,Fever | 3,Fatigue" },
   { variable_name := "satisfaction", form_name := "followup", section_header := "Follow-up",
     field_type := "dropdown", field_label := "Overall satisfaction",
     choices_calculations_or_slider_labels := "1,Poor | 2,Fair | 3,Good | 4,Excellent" },
   { variable_name := "visit_date_v1", form_name := "enrollment", field_type := "text",
     field_label := "Visit 1 date",
     text_validation_type_or_show_slider_number := "date_ymd" },
   { variable_name := "visit_date_v2", form_name := "followup", field_type := "text",
     field_label := "Visit 2 date",
     text_validation_type_or_show_slider_number := "date_ymd" },
   { variable_name := "adls_wash", form_name := "enrollment", field_type := "radio",
     field_label := "Able to wash",
     choices_calculations_or_slider_labels := "0,No | 1,Yes", matrix_group_name := "adls" },
   { variable_name := "adls_dress", form_name := "enrollment", field_type := "radio",
     field_label := "Able to dress",
     choices_calculations_or_slider_labels := "0,No | 1,Yes", matrix_group_name := "adls" },
   { variable_name := "adls_eat", form_name := "enrollment", field_type := "radio",
     field_label := "Able to eat",
     choices_calculations_or_slider_labels := "0,No | 1,Yes", matrix_group_name := "adls" },
   { variable_name := "notes", form_name := "followup", field_type := "notes",
     field_label := "Free-text notes" }] ++
  (if hasSlider then
    [{ variable_name := "pain_severity", form_name := "followup", field_type := "slider",
       field_label := "Pain severity",
       choices_calculations_or_slider_labels := "0,No pain | 50,Moderate | 100,Severe",
       text_validation_type_or_show_slider_number := "y" }]
   else []) ++
  (if hasBP then
    [{ variable_name := "bp_sys", form_name := "enrollment", field_type := "text",
       field_label := "Systolic BP (mmHg)", field_note := "units=mmHg",
       text_validation_type_or_show_slider_number := "integer",
       text_validation_min := "60", text_validation_max := "260" },
     { variable_name := "bp_dia", form_name := "enrollment", field_type := "text",
       field_label := "Diastolic BP (mmHg)", field_note := "units=mmHg",
       text_validation_type_or_show_slider_number := "integer",
       text_validation_min := "30", text_validation_max := "180" }]
   else [])

/-- The per-row choice parsing inside `generate_dataset` (yes/no and
true/false use the REDCap built-ins; otherwise only comma-carrying tokens
contribute). -/
def genChoicePairs (ft raw : String) : List (String × String) :=
  if ft = "yesno" then [("0", "No"), ("1", "Yes")]
  else if ft = "truefalse" then [("0", "False"), ("1", "True")]
  else
    let raw := pyStrip raw
    (if raw = "" then [] else pySplit "|" raw).foldl
      (fun out part =>
        let part := pyStrip part
        if part = "" then out
        else match splitChoiceToken part with
          | some p => out ++ [p]
          | none => out)
      []

/-- The `choices` dict of `generate_dataset` (only categorical row kinds are
keyed; a duplicated name keeps the last row). -/
def genChoices (rows : List DictRow) (v : String) : List (String × String) :=
  ((rows.filter fun r =>
    r.variable_name = v &&
    (r.field_type = "radio" || r.field_type = "dropdown" || r.field_type = "checkbox" ||
     r.field_type = "yesno" || r.field_type = "truefalse")).getLast?).elim []
    fun r => genChoicePairs r.field_type r.choices_calculations_or_slider_labels

/-- The `data_cols` list of `generate_dataset`: checkbox fields expand to a
`var___code` column per declared code, everything else contributes its own
name. -/
def genDataCols (rows : List DictRow) : List String :=
  rows.flatMap fun r =>
    if r.field_type = "checkbox" then
      (genChoicePairs r.field_type r.choices_calculations_or_slider_labels).map
        fun p => r.variable_name ++ "___" ++ p.1
    else [r.variable_name]

/-- The abstract per-row draw record (see the header note): one component
per `rng` consultation in the row loop of `generate_dataset`. -/
structure RowDraws where
  sexIdx : Nat
  ageK : Nat
  h : Rat
  w : Rat
  symp : Nat → Bool
  pregDraw : Bool
  d1 : Nat
  d2 : Nat
  satGiven : Bool
  satIdx : Nat
  bpSysK : Nat
  bpDiaK : Nat
  notesBlank : Bool
  painK : Nat
  adlsGiven : Nat → Bool
  adlsIdx : Nat → Nat

/-- `f"{x:.1f}"`: round half-even to tenths, render with one decimal
digit.  (A Python float rounds the binary value; the generated magnitudes
are far from ties, and no check in scope reads these digits back beyond
float re-parsing.) -/
def fmt1 (x : Rat) : String :=
  let t : Int := rheInt (x * 10)
  (if t < 0 then "-" else "") ++ natStr (t.natAbs / 10) ++ "." ++ natStr (t.natAbs % 10)

/-- Month lengths of 2024 (leap year), for `date(2024,1,1) + timedelta(k)`. -/
def monthLens : List Nat := [31, 29, 31, 30, 31, 30, 31, 31, 30, 31, 30, 31]

def dayToMDAux : List Nat → Nat → Nat → Nat × Nat
  | [], m, dd => (m, dd + 1)
  | len :: rest, m, dd => if dd < len then (m, dd + 1) else dayToMDAux rest (m + 1) (dd - len)

/-- Day-of-year (0-based) to (month, day) in 2024. -/
def dayToMD (dd : Nat) : Nat × Nat := dayToMDAux monthLens 1 dd

def pad2 (n : Nat) : String := if n < 10 then "0" ++ natStr n else natStr n

/-- `dd_eval.synth._rand_date`: `date(2024,1,1) + timedelta(days=k)` in ISO
format, with `k = randrange(0, 365)` internalised as `k % 365`. -/
def rand_date (k : Nat) : String :=
  let md := dayToMD (k % 365)
  "2024-" ++ pad2 md.1 ++ "-" ++ pad2 md.2

/-- `rnd_choice(rng, seq)` = `seq[rng.randrange(0, len(seq))]`. -/
def rnd_choice (seq : List String) (k : Nat) : String :=
  seq.getD (k % seq.length) ""

/-- One row of `generate_dataset` (the body of its `for i in range(n)`
loop), writing each field value into the initially-empty row exactly as the
source does. -/
def genDataRow (dictRows : List DictRow) (i : Nat) (d : RowDraws) : DataRow :=
  let data_cols := genDataCols dictRows
  let typesHasSex := dictRows.any fun r => r.variable_name = "sex"
  let row : DataRow := data_cols.map fun c => (c, "")
  let row := if data_cols.contains "record_id" then
    pyDictInsert "record_id" (natStr (1000 + i)) row else row
  let sex_val := if typesHasSex then rnd_choice ["0", "1"] d.sexIdx else ""
  let row := if data_cols.contains "sex" then pyDictInsert "sex" sex_val row else row
  let row := if data_cols.contains "age" then
    pyDictInsert "age" (natStr (18 + d.ageK % 72)) row else row
  let has_height := data_cols.contains "height_cm"
  let has_weight := data_cols.contains "weight_kg"
  let row := if has_height then pyDictInsert "height_cm" (fmt1 d.h) row else row
  let row := if has_weight then pyDictInsert "weight_kg" (fmt1 d.w) row else row
  let row := if data_cols.contains "bmi" && has_height && has_weight &&
      !(d.h = 0) && !(d.w = 0) then
    pyDictInsert "bmi" (fmt1 (d.w / ((d.h / 100) ^ 2))) row else row
  let row := if data_cols.any (fun c => startsWithStr "symptoms___" c) then
    ((genChoices dictRows "symptoms").zip (List.range (genChoices dictRows "symptoms").length)).foldl
      (fun row p =>
        pyDictInsert ("symptoms___" ++ p.1.1) (if d.symp p.2 then "1" else "0") row)
      row
  else row
  let row := if data_cols.contains "pregnant" then
    pyDictInsert "pregnant"
      (if sex_val = "" then "" else if sex_val = "1" ∧ d.pregDraw then "1" else "0") row
  else row
  let row := if data_cols.contains "visit_date_v1" then
    pyDictInsert "visit_date_v1" (rand_date d.d1) row else row
  let row := if data_cols.contains "visit_date_v2" then
    pyDictInsert "visit_date_v2" (rand_date d.d2) row else row
  let row := if data_cols.contains "satisfaction" then
    pyDictInsert "satisfaction"
      (if d.satGiven then rnd_choice ["1", "2", "3", "4"] d.satIdx else "") row
  else row
  let row := if data_cols.contains "bp_sys" then
    pyDictInsert "bp_sys" (natStr (90 + d.bpSysK % 90)) row else row
  let row := if data_cols.contains "bp_dia" then
    pyDictInsert "bp_dia" (natStr (50 + d.bpDiaK % 60)) row else row
  let row := if data_cols.contains "notes" then
    pyDictInsert "notes" (if d.notesBlank then "" else "Needs follow-up") row else row
  let row := if data_cols.contains "pain_severity" then
    pyDictInsert "pain_severity" (natStr (d.painK % 101)) row else row
  let row := (["adls_wash", "adls_dress", "adls_eat"].zip [0, 1, 2]).foldl
    (fun row p =>
      if data_cols.contains p.1 then
        pyDictInsert p.1
          (if d.adlsGiven p.2 then rnd_choice ["0", "1"] (d.adlsIdx p.2) else "") row
      else row)
    row
  row

/-- `generate_dataset`. -/
def generate_dataset (dictRows : List DictRow) (n : Nat) (draws : Nat → RowDraws) :
    List DataRow :=
  (List.range n).map fun i => genDataRow dictRows i (draws i)

end DD

namespace DD

/-! ## Lemmas: string primitives on generated values -/

theorem digitChar_not_space (d : Nat) : pyIsSpace (digitChar d) = false := by
  rcases d with _|_|_|_|_|_|_|_|_|_|d <;> rfl

theorem digitChar_isDigit (d : Nat) (h : d < 10) : isDigitChar (digitChar d) = true := by
  rcases d with _|_|_|_|_|_|_|_|_|_|d <;> first | rfl | omega

theorem digitChar_toNat (d : Nat) (h : d < 10) : (digitChar d).toNat = 48 + d := by
  rcases d with _|_|_|_|_|_|_|_|_|_|d <;> first | rfl | omega

theorem digitsVal_append_singleton (l : List Char) (c : Char) :
    digitsVal (l ++ [c]) = digitsVal l * 10 + (c.toNat - 48) := by
  simp [digitsVal, List.foldl_append]

theorem natStrAux_spec : ∀ fuel n, n < fuel →
    natStrAux fuel n ≠ [] ∧ (natStrAux fuel n).all isDigitChar = true ∧
    digitsVal (natStrAux fuel n) = n := by
  intro fuel
  induction fuel with
  | zero => intro n h; omega
  | succ f ih =>
    intro n h
    by_cases h10 : n < 10
    · simp only [natStrAux, if_pos h10]
      refine ⟨by simp, by simp [digitChar_isDigit n h10], ?_⟩
      simp [digitsVal, digitChar_toNat n h10]
    · have hlt : n / 10 < f := by
        have h2 : n / 10 < n := Nat.div_lt_self (by omega) (by omega)
        omega
      obtain ⟨h1, h2, h3⟩ := ih (n / 10) hlt
      simp only [natStrAux, if_neg h10]
      refine ⟨by simp, ?_, ?_⟩
      · simp [List.all_append, h2, digitChar_isDigit (n % 10) (Nat.mod_lt _ (by omega))]
      · rw [digitsVal_append_singleton, h3, digitChar_toNat (n % 10) (Nat.mod_lt _ (by omega))]
        omega

theorem natStr_ne_nil (n : Nat) : (natStr n).data ≠ [] :=
  (natStrAux_spec (n + 1) n (by omega)).1

theorem natStr_all_digits (n : Nat) : (natStr n).data.all isDigitChar = true :=
  (natStrAux_spec (n + 1) n (by omega)).2.1

theorem digitsVal_natStr (n : Nat) : digitsVal (natStr n).data = n :=
  (natStrAux_spec (n + 1) n (by omega)).2.2

theorem not_space_of_isDigit (c : Char) (h : isDigitChar c = true) : pyIsSpace c = false := by
  by_contra hs
  rw [Bool.not_eq_false] at hs
  simp only [pyIsSpace, Bool.or_eq_true, decide_eq_true_eq] at hs
  rcases hs with ((((hc | hc) | hc) | hc) | hc) | hc <;> subst hc <;> exact absurd h (by decide)

theorem not_sign_of_isDigit (c : Char) (h : isDigitChar c = true) :
    (c = '+' || c = '-') = false := by
  by_contra hs
  rw [Bool.not_eq_false, Bool.or_eq_true, decide_eq_true_eq, decide_eq_true_eq] at hs
  rcases hs with hc | hc <;> subst hc <;> exact absurd h (by decide)

theorem dropWhile_eq_self_of_all {p : Char → Bool} (l : List Char)
    (h : ∀ c ∈ l, p c = false) : l.dropWhile p = l := by
  cases l with
  | nil => rfl
  | cons c t => simp [List.dropWhile, h c (by simp)]

theorem stripList_eq_self_of_all (l : List Char) (h : ∀ c ∈ l, pyIsSpace c = false) :
    stripList l = l := by
  unfold stripList
  rw [dropWhile_eq_self_of_all l h,
      dropWhile_eq_self_of_all _ (by intro c hc; exact h c (by simpa using hc))]
  simp

theorem pyStrip_eq_self_of_all (s : String) (h : ∀ c ∈ s.data, pyIsSpace c = false) :
    pyStrip s = s := by
  unfold pyStrip
  rw [stripList_eq_self_of_all _ h]

theorem pyStrip_natStr (n : Nat) : pyStrip (natStr n) = natStr n :=
  pyStrip_eq_self_of_all _ fun c hc =>
    not_space_of_isDigit c (List.all_eq_true.mp (natStr_all_digits n) c hc)

theorem is_int_natStr (n : Nat) : is_int (natStr n) = true := by
  unfold is_int pyIntAccepts
  rw [stripList_eq_self_of_all _ (fun c hc =>
    not_space_of_isDigit c (List.all_eq_true.mp (natStr_all_digits n) c hc))]
  cases hd : (natStr n).data with
  | nil => exact absurd hd (natStr_ne_nil n)
  | cons c t =>
    have hc : isDigitChar c = true :=
      List.all_eq_true.mp (natStr_all_digits n) c (by rw [hd]; simp)
    have hall : (c :: t).all isDigitChar = true := by rw [← hd]; exact natStr_all_digits n
    simp [dropSign, not_sign_of_isDigit c hc, hall]

theorem takeWhile_eq_self_of_all {p : Char → Bool} (l : List Char) (h : l.all p = true) :
    l.takeWhile p = l := by
  induction l with
  | nil => rfl
  | cons c t ih =>
    simp only [List.all_cons, Bool.and_eq_true] at h
    simp [List.takeWhile, h.1, ih h.2]

theorem takeWhile_append_stop {p : Char → Bool} (l1 : List Char) (c : Char) (l2 : List Char)
    (h1 : l1.all p = true) (h2 : p c = false) :
    (l1 ++ c :: l2).takeWhile p = l1 := by
  induction l1 with
  | nil => simp [List.takeWhile, h2]
  | cons a t ih =>
    simp only [List.all_cons, Bool.and_eq_true] at h1
    simp [List.takeWhile, h1.1, ih h1.2]

end DD

namespace DD

theorem floatBody_digits_dot_digits (l1 l2 : List Char) (h1 : l1.all isDigitChar = true)
    (hne : l1 ≠ []) (h2 : l2.all isDigitChar = true) :
    floatBodyAccepts (l1 ++ '.' :: l2) = true := by
  simp only [floatBodyAccepts]
  rw [takeWhile_append_stop l1 '.' l2 h1 (by decide), List.drop_left]
  simp [takeWhile_eq_self_of_all l2 h2, List.isEmpty_iff, hne]

theorem fmt1_data (x : Rat) : (fmt1 x).data =
    (if rheInt (x * 10) < 0 then ['-'] else []) ++
    ((natStr ((rheInt (x * 10)).natAbs / 10)).data ++
      '.' :: (natStr ((rheInt (x * 10)).natAbs % 10)).data) := by
  unfold fmt1
  split <;> rename_i h <;> simp [h]

theorem fmt1_not_space (x : Rat) : ∀ c ∈ (fmt1 x).data, pyIsSpace c = false := by
  rw [fmt1_data]
  intro c hc
  rcases List.mem_append.mp hc with h | h
  · split at h
    · simp at h
      subst h
      rfl
    · simp at h
  · rcases List.mem_append.mp h with h | h
    · exact not_space_of_isDigit c (List.all_eq_true.mp (natStr_all_digits _) c h)
    · rcases List.mem_cons.mp h with h | h
      · subst h
        rfl
      · exact not_space_of_isDigit c (List.all_eq_true.mp (natStr_all_digits _) c h)

theorem pyStrip_fmt1 (x : Rat) : pyStrip (fmt1 x) = fmt1 x :=
  pyStrip_eq_self_of_all _ (fmt1_not_space x)

theorem is_num_fmt1 (x : Rat) : is_num (fmt1 x) = true := by
  unfold is_num pyFloatAccepts
  rw [stripList_eq_self_of_all _ (fmt1_not_space x), fmt1_data]
  split
  · show floatBodyAccepts (dropSign ('-' :: _)) = true
    rw [show ∀ l, dropSign ('-' :: l) = l from fun l => rfl]
    exact floatBody_digits_dot_digits _ _ (natStr_all_digits _) (natStr_ne_nil _)
      (natStr_all_digits _)
  · simp only [List.nil_append]
    cases hd : (natStr ((rheInt (x * 10)).natAbs / 10)).data with
    | nil => exact absurd hd (natStr_ne_nil _)
    | cons c t =>
      have hc : isDigitChar c = true :=
        List.all_eq_true.mp (natStr_all_digits _) c (by rw [hd]; simp)
      show floatBodyAccepts (dropSign ((c :: t) ++ _)) = true
      rw [List.cons_append]
      show floatBodyAccepts (dropSign (c :: _)) = true
      simp only [dropSign, not_sign_of_isDigit c hc, Bool.false_eq_true, if_false]
      rw [← List.cons_append, ← hd]
      exact floatBody_digits_dot_digits _ _ (natStr_all_digits _) (natStr_ne_nil _)
        (natStr_all_digits _)

end DD

namespace DD

set_option maxRecDepth 4000

theorem rand_date_ymd_bounded : ∀ j, j < 365 → is_date_ymd (rand_date j) = true := by decide

theorem rand_date_strip_bounded : ∀ j, j < 365 → pyStrip (rand_date j) = rand_date j := by decide

theorem rand_date_eq_mod (k : Nat) : rand_date k = rand_date (k % 365) := by
  unfold rand_date
  rw [Nat.mod_eq_of_lt (Nat.mod_lt k (by norm_num))]

theorem is_date_ymd_rand_date (k : Nat) : is_date_ymd (rand_date k) = true := by
  rw [rand_date_eq_mod]
  exact rand_date_ymd_bounded _ (Nat.mod_lt k (by norm_num))

theorem pyStrip_rand_date (k : Nat) : pyStrip (rand_date k) = rand_date k := by
  rw [rand_date_eq_mod]
  exact rand_date_strip_bounded _ (Nat.mod_lt k (by norm_num))

/-! ## Silence lemmas for the value-dependent checks -/

theorem check_types_eq_nil (dd : Dictionary) (rows : List DataRow) (cols : List String)
    (H : ∀ e ∈ checkTypesEntries dd cols, ∀ v ∈ collectCol rows e.2.1, v ≠ "" →
      (e.2.2 = "integer" → is_int v = true) ∧ (e.2.2 = "number" → is_num v = true) ∧
      (e.2.2 = "date_ymd" ∨ e.2.2 = "datetime_ymd" → is_date_ymd v = true)) :
    check_types dd rows cols = [] := by
  unfold check_types
  rw [List.flatMap_eq_nil_iff]
  intro e he
  simp only
  by_cases hv : ((collectCol rows e.2.1).filter (fun v => v ≠ "")).isEmpty
  · rw [if_pos hv]
  · rw [if_neg hv]
    have hne : (collectCol rows e.2.1).filter (fun v => v ≠ "") ≠ [] := by
      intro h
      rw [h] at hv
      exact hv rfl
    have hfull : ∀ (p : String → Bool),
        (∀ v ∈ (collectCol rows e.2.1).filter (fun v => v ≠ ""), p v = true) →
        ¬ ((((collectCol rows e.2.1).filter (fun v => v ≠ "")).countP p : Rat) /
           (((collectCol rows e.2.1).filter (fun v => v ≠ "")).length : Rat) < 95/100) := by
      intro p hall
      rw [List.countP_eq_length.mpr hall, div_self (by
        have := List.length_pos.mpr hne
        positivity)]
      norm_num
    have hmem : ∀ v ∈ (collectCol rows e.2.1).filter (fun v => v ≠ ""),
        v ∈ collectCol rows e.2.1 ∧ v ≠ "" := by
      intro v hv2
      have := List.mem_filter.mp hv2
      exact ⟨this.1, by simpa using this.2⟩
    by_cases h1 : e.2.2 = "integer"
    · rw [if_pos h1, if_neg (hfull _ fun v hv2 =>
        (H e he v (hmem v hv2).1 (hmem v hv2).2).1 h1)]
    · rw [if_neg h1]
      by_cases h2 : e.2.2 = "number"
      · rw [if_pos h2, if_neg (hfull _ fun v hv2 =>
          (H e he v (hmem v hv2).1 (hmem v hv2).2).2.1 h2)]
      · rw [if_neg h2]
        by_cases h3 : (e.2.2 = "date_ymd" || e.2.2 = "datetime_ymd") = true
        · rw [if_pos h3, if_neg (hfull (fun v => is_date_ymd v) fun v hv2 =>
            (H e he v (hmem v hv2).1 (hmem v hv2).2).2.2 (by
              rcases (Bool.or_eq_true _ _).mp h3 with h | h
              · exact Or.inl (by simpa using h)
              · exact Or.inr (by simpa using h)))]
        · rw [if_neg h3]

theorem check_domains_eq_nil (dd : Dictionary) (rows : List DataRow) (cols : List String)
    (H : ∀ e ∈ domainsToCheck dd cols, ∀ v ∈ collectCol rows e.1,
      v = "" ∨ e.2.contains v = true) :
    check_domains dd rows cols = [] := by
  unfold check_domains
  rw [List.flatMap_eq_nil_iff]
  intro e he
  have hvals := H e he
  have hfl : ((collectCol rows e.1).filter (fun v => v ≠ "")).dedup.filter
      (fun v => !e.2.contains v) = [] := by
    rw [List.filter_eq_nil_iff]
    intro v hv
    have hv1 : v ∈ (collectCol rows e.1).filter (fun v => v ≠ "") := List.mem_dedup.mp hv
    have hmf := List.mem_filter.mp hv1
    rcases hvals v hmf.1 with h | h
    · exact absurd (by simpa using hmf.2) (by simp [h])
    · rw [h]
      decide
  simp only
  rw [hfl]
  simp [pySorted]
end DD

namespace DD

/-! ## Reading generated rows -/

theorem pyDictGet_insert {α} (dflt : α) (k c : String) (v : α) (r : List (String × α)) :
    pyDictGet (pyDictInsert k v r) c dflt = if c = k then v else pyDictGet r c dflt := by
  induction r with
  | nil =>
    by_cases h : c = k
    · subst h
      simp [pyDictInsert, pyDictGet]
    · have hd : decide (k = c) = false := decide_eq_false fun hh => h hh.symm
      rw [if_neg h]
      simp [pyDictInsert, pyDictGet, List.find?, hd]
  | cons p t ih =>
    obtain ⟨pk, pv⟩ := p
    by_cases hk : pk = k
    · subst hk
      by_cases h : c = pk
      · subst h
        simp [pyDictInsert, pyDictGet]
      · have hd : decide (pk = c) = false := decide_eq_false fun hh => h hh.symm
        rw [if_neg (fun hh => h hh)]
        simp [pyDictInsert, pyDictGet, List.find?, hd]
    · by_cases h : c = pk
      · subst h
        rw [if_neg hk]
        simp [pyDictInsert, pyDictGet, List.find?, hk]
      · have hd : decide (pk = c) = false := decide_eq_false fun hh => h hh.symm
        simp only [pyDictInsert, if_neg hk]
        have hstep : ∀ (l : List (String × α)), pyDictGet ((pk, pv) :: l) c dflt = pyDictGet l c dflt := by
          intro l
          simp [pyDictGet, List.find?, hd]
        rw [hstep, hstep, ih]

theorem rowGet_insert (k v : String) (r : DataRow) (c : String) :
    rowGet (pyDictInsert k v r) c = if c = k then v else rowGet r c :=
  pyDictGet_insert "" k c v r

theorem rowGet_ite (p : Prop) [Decidable p] (r1 r2 : DataRow) (c : String) :
    rowGet (if p then r1 else r2) c = if p then rowGet r1 c else rowGet r2 c :=
  apply_ite (fun r => rowGet r c) p r1 r2

end DD

namespace DD

/-! ## Warn-only checks emit no error-severity findings -/

theorem check_unit_anomaly_warn (dd : Dictionary) (rows : List DataRow) (cols : List String) :
    ∀ f ∈ check_unit_anomaly dd rows cols, f.severity = "warn" := by
  intro f hf
  unfold check_unit_anomaly at hf
  rw [List.mem_flatMap] at hf
  obtain ⟨e, _, hf⟩ := hf
  dsimp only at hf
  split_ifs at hf with h1 h2
  · simp at hf
  · rw [List.mem_singleton] at hf
    subst hf
    rfl
  · simp at hf

theorem check_missingness_spike_warn (rows : List DataRow) (cols : List String) :
    ∀ f ∈ check_missingness_spike rows cols, f.severity = "warn" := by
  intro f hf
  unfold check_missingness_spike at hf
  rw [List.mem_filterMap] at hf
  obtain ⟨c, _, hc⟩ := hf
  dsimp only at hc
  split_ifs at hc <;> simp_all
  subst hc
  rfl

theorem check_branching_warn (dd : Dictionary) (rows : List DataRow) (cols : List String) :
    ∀ f ∈ check_branching dd rows cols, f.severity = "warn" := by
  intro f hf
  unfold check_branching at hf
  split_ifs at hf <;> simp_all

theorem check_matrix_consecutive_warn (dd : Dictionary) :
    ∀ f ∈ check_matrix_consecutive dd, f.severity = "warn" := by
  intro f hf
  unfold check_matrix_consecutive at hf
  rw [List.mem_flatMap] at hf
  obtain ⟨e, _, hf⟩ := hf
  simp only [List.mem_ite_nil_left, List.mem_ite_nil_right, List.mem_singleton] at hf
  obtain ⟨-, -, rfl⟩ := hf
  rfl

theorem check_rename_drift_warn (dd : Dictionary) (cols : List String) :
    ∀ f ∈ check_rename_drift dd cols, f.severity = "warn" := by
  intro f hf
  unfold check_rename_drift at hf
  rw [List.mem_flatMap] at hf
  obtain ⟨p, _, hf⟩ := hf
  simp only [List.mem_ite_nil_right] at hf
  obtain ⟨-, hf⟩ := hf
  cases hfind : p.2.find? fun h => cols.contains h with
  | some h =>
    rw [hfind, List.mem_singleton] at hf
    subst hf
    rfl
  | none =>
    rw [hfind] at hf
    simp at hf

theorem filter_error_of_warn (l : List Finding) (h : ∀ f ∈ l, f.severity = "warn") :
    l.filter (fun f => f.severity = "error") = [] := by
  rw [List.filter_eq_nil_iff]
  intro f hf
  simp [h f hf]

end DD

namespace DD

/-! ## The clean fixtures under the check engine -/

theorem genDataCols_eq (hs hb : Bool) : genDataCols (build_dictionary hs hb) =
    ["record_id", "sex", "pregnant", "age", "height_cm", "weight_kg", "bmi",
     "symptoms___1", "symptoms___2", "symptoms___3", "satisfaction",
     "visit_date_v1", "visit_date_v2", "adls_wash", "adls_dress", "adls_eat", "notes"] ++
    (if hs then ["pain_severity"] else []) ++ (if hb then ["bp_sys", "bp_dia"] else []) := by
  cases hs <;> cases hb <;> rfl

theorem genChoices_symptoms (hs hb : Bool) :
    genChoices (build_dictionary hs hb) "symptoms" =
    [("1", "Cough"), ("2", "Fever"), ("3", "Fatigue")] := by
  cases hs <;> cases hb <;> rfl

theorem genDataRow_values (hs hb : Bool) (i : Nat) (d : RowDraws) :
    rowGet (genDataRow (build_dictionary hs hb) i d) "record_id" = natStr (1000 + i) ∧
    rowGet (genDataRow (build_dictionary hs hb) i d) "sex" = rnd_choice ["0", "1"] d.sexIdx ∧
    rowGet (genDataRow (build_dictionary hs hb) i d) "pregnant" =
      (if rnd_choice ["0", "1"] d.sexIdx = "" then ""
       else if rnd_choice ["0", "1"] d.sexIdx = "1" ∧ d.pregDraw then "1" else "0") ∧
    rowGet (genDataRow (build_dictionary hs hb) i d) "age" = natStr (18 + d.ageK % 72) ∧
    rowGet (genDataRow (build_dictionary hs hb) i d) "height_cm" = fmt1 d.h ∧
    rowGet (genDataRow (build_dictionary hs hb) i d) "weight_kg" = fmt1 d.w ∧
    rowGet (genDataRow (build_dictionary hs hb) i d) "visit_date_v1" = rand_date d.d1 ∧
    rowGet (genDataRow (build_dictionary hs hb) i d) "visit_date_v2" = rand_date d.d2 ∧
    rowGet (genDataRow (build_dictionary hs hb) i d) "satisfaction" =
      (if d.satGiven then rnd_choice ["1", "2", "3", "4"] d.satIdx else "") ∧
    rowGet (genDataRow (build_dictionary hs hb) i d) "adls_wash" =
      (if d.adlsGiven 0 then rnd_choice ["0", "1"] (d.adlsIdx 0) else "") ∧
    rowGet (genDataRow (build_dictionary hs hb) i d) "adls_dress" =
      (if d.adlsGiven 1 then rnd_choice ["0", "1"] (d.adlsIdx 1) else "") ∧
    rowGet (genDataRow (build_dictionary hs hb) i d) "adls_eat" =
      (if d.adlsGiven 2 then rnd_choice ["0", "1"] (d.adlsIdx 2) else "") ∧
    (hb = true → rowGet (genDataRow (build_dictionary hs hb) i d) "bp_sys" =
        natStr (90 + d.bpSysK % 90) ∧
      rowGet (genDataRow (build_dictionary hs hb) i d) "bp_dia" =
        natStr (50 + d.bpDiaK % 60)) := by
  cases hs <;> cases hb <;>
    simp +decide [genDataRow, genDataCols_eq, genChoices_symptoms, rowGet_insert, rowGet_ite,
      List.foldl_cons, List.foldl_nil, List.zip, List.zipWith,
      show List.range 3 = [0, 1, 2] from rfl]

theorem checkTypesEntries_clean (hs hb : Bool) :
    checkTypesEntries (loadDictionary (build_dictionary hs hb))
      (genDataCols (build_dictionary hs hb)) =
    [("record_id", "record_id", "integer"), ("age", "age", "integer"),
     ("height_cm", "height_cm", "number"), ("weight_kg", "weight_kg", "number"),
     ("visit_date_v1", "visit_date_v1", "date_ymd"),
     ("visit_date_v2", "visit_date_v2", "date_ymd")] ++
    (if hb then [("bp_sys", "bp_sys", "integer"), ("bp_dia", "bp_dia", "integer")] else []) := by
  cases hs <;> cases hb <;> rfl

theorem domainsToCheck_clean (hs hb : Bool) :
    domainsToCheck (loadDictionary (build_dictionary hs hb))
      (genDataCols (build_dictionary hs hb)) =
    [("sex", ["0", "1"]), ("pregnant", ["0", "1"]), ("satisfaction", ["1", "2", "3", "4"]),
     ("adls_wash", ["0", "1"]), ("adls_dress", ["0", "1"]), ("adls_eat", ["0", "1"])] := by
  cases hs <;> cases hb <;> rfl

theorem check_columns_clean (hs hb : Bool) :
    check_columns (loadDictionary (build_dictionary hs hb))
      (genDataCols (build_dictionary hs hb)) = [] := by
  cases hs <;> cases hb <;> rfl

theorem check_checkbox_clean (hs hb : Bool) :
    check_checkbox_mismatch (loadDictionary (build_dictionary hs hb))
      (genDataCols (build_dictionary hs hb)) = [] := by
  cases hs <;> cases hb <;> rfl

theorem check_matrix_clean (hs hb : Bool) :
    check_matrix_consecutive (loadDictionary (build_dictionary hs hb)) = [] := by
  cases hs <;> cases hb <;> rfl

theorem check_rename_clean (hs hb : Bool) :
    check_rename_drift (loadDictionary (build_dictionary hs hb))
      (genDataCols (build_dictionary hs hb)) = [] := by
  cases hs <;> cases hb <;> rfl

theorem mem_collectCol (rows : List DataRow) (c v : String) (h : v ∈ collectCol rows c) :
    ∃ r ∈ rows, v = pyStrip (rowGet r c) := by
  unfold collectCol at h
  rw [List.mem_map] at h
  obtain ⟨r, hr, hv⟩ := h
  exact ⟨r, List.take_subset _ _ hr, hv.symm⟩

theorem rnd_choice2 (a b : String) (k : Nat) :
    rnd_choice [a, b] k = a ∨ rnd_choice [a, b] k = b := by
  unfold rnd_choice
  have h : k % 2 = 0 ∨ k % 2 = 1 := by omega
  rcases h with h | h <;> simp [h]

theorem rnd_choice4 (a b c e : String) (k : Nat) :
    rnd_choice [a, b, c, e] k = a ∨ rnd_choice [a, b, c, e] k = b ∨
    rnd_choice [a, b, c, e] k = c ∨ rnd_choice [a, b, c, e] k = e := by
  unfold rnd_choice
  have h : k % 4 = 0 ∨ k % 4 = 1 ∨ k % 4 = 2 ∨ k % 4 = 3 := by omega
  rcases h with h | h | h | h <;> simp [h]

end DD

namespace DD

/-- C1.  For every clean run — a (dictionary, dataset) pair produced by the
fixture generator `dd_eval.synth.dictionary_and_data` with no corruption
applied, over every RNG draw sequence its interface can deliver — the check
pipeline that `dd_val.cli.main` runs (`runChecks`) emits zero findings of
severity "error".  Clean run directories resolve no previous findings (their
names match none of the version patterns and they carry no pointer file), so
`mainFindings` adds nothing beyond `runChecks` on them. -/
theorem claim_C1_clean_run_zero_error_findings (hs hb : Bool) (n : Nat) (draws : Nat → RowDraws) :
    (runChecks (loadDictionary (build_dictionary hs hb))
        (genDataCols (build_dictionary hs hb))
        (generate_dataset (build_dictionary hs hb) n draws)).filter
      (fun f => f.severity = "error") = [] := by
  have hrow : ∀ r ∈ generate_dataset (build_dictionary hs hb) n draws,
      ∃ i, r = genDataRow (build_dictionary hs hb) i (draws i) := by
    intro r hr
    unfold generate_dataset at hr
    rw [List.mem_map] at hr
    obtain ⟨i, _, h⟩ := hr
    exact ⟨i, h.symm⟩
  have hval : ∀ (c : String) (v : String),
      v ∈ collectCol (generate_dataset (build_dictionary hs hb) n draws) c →
      ∃ i, v = pyStrip (rowGet (genDataRow (build_dictionary hs hb) i (draws i)) c) := by
    intro c v hv
    obtain ⟨r, hr, hveq⟩ := mem_collectCol _ c v hv
    obtain ⟨i, hi⟩ := hrow r hr
    rw [hi] at hveq
    exact ⟨i, hveq⟩
  have htypes : check_types (loadDictionary (build_dictionary hs hb))
      (generate_dataset (build_dictionary hs hb) n draws)
      (genDataCols (build_dictionary hs hb)) = [] := by
    apply check_types_eq_nil
    intro e he
    rw [checkTypesEntries_clean] at he
    rcases List.mem_append.mp he with he | he
    · simp only [List.mem_cons, List.not_mem_nil, or_false] at he
      rcases he with he | he | he | he | he | he <;> subst he <;>
        intro v hv hne <;>
        refine ⟨fun hexp => ?_, fun hexp => ?_, fun hexp => ?_⟩ <;>
        first
        | (exact absurd hexp (by decide))
        | (rcases hexp with hexp | hexp <;> exact absurd hexp (by decide))
        | · obtain ⟨i, hveq⟩ := hval _ v hv
            first
            | (rw [(genDataRow_values hs hb i (draws i)).1] at hveq
               rw [hveq, pyStrip_natStr]
               exact is_int_natStr _)
            | (rw [(genDataRow_values hs hb i (draws i)).2.2.2.1] at hveq
               rw [hveq, pyStrip_natStr]
               exact is_int_natStr _)
            | (rw [(genDataRow_values hs hb i (draws i)).2.2.2.2.1] at hveq
               rw [hveq, pyStrip_fmt1]
               exact is_num_fmt1 _)
            | (rw [(genDataRow_values hs hb i (draws i)).2.2.2.2.2.1] at hveq
               rw [hveq, pyStrip_fmt1]
               exact is_num_fmt1 _)
            | (rw [(genDataRow_values hs hb i (draws i)).2.2.2.2.2.2.1] at hveq
               rw [hveq, pyStrip_rand_date]
               exact is_date_ymd_rand_date _)
            | (rw [(genDataRow_values hs hb i (draws i)).2.2.2.2.2.2.2.1] at hveq
               rw [hveq, pyStrip_rand_date]
               exact is_date_ymd_rand_date _)
    · cases hb with
      | false => simp at he
      | true =>
        simp only [if_true, List.mem_cons, List.not_mem_nil, or_false] at he
        rcases he with he | he <;> subst he <;>
          intro v hv hne <;>
          refine ⟨fun hexp => ?_, fun hexp => ?_, fun hexp => ?_⟩ <;>
          first
          | (exact absurd hexp (by decide))
          | (rcases hexp with hexp | hexp <;> exact absurd hexp (by decide))
          | · obtain ⟨i, hveq⟩ := hval _ v hv
              have hbp := (genDataRow_values hs true i (draws i)).2.2.2.2.2.2.2.2.2.2.2.2 rfl
              first | dsimp only at hveq | skip
              first
              | (rw [hbp.1] at hveq
                 rw [hveq, pyStrip_natStr]
                 exact is_int_natStr _)
              | (rw [hbp.2] at hveq
                 rw [hveq, pyStrip_natStr]
                 exact is_int_natStr _)
  have hdomains : check_domains (loadDictionary (build_dictionary hs hb))
      (generate_dataset (build_dictionary hs hb) n draws)
      (genDataCols (build_dictionary hs hb)) = [] := by
    apply check_domains_eq_nil
    intro e he
    rw [domainsToCheck_clean] at he
    simp only [List.mem_cons, List.not_mem_nil, or_false] at he
    rcases he with he | he | he | he | he | he
    · subst he
      intro v hv
      obtain ⟨i, hveq⟩ := hval _ v hv
      rw [(genDataRow_values hs hb i (draws i)).2.1] at hveq
      rcases rnd_choice2 "0" "1" (draws i).sexIdx with h | h <;> rw [h] at hveq <;>
        subst hveq <;> right <;> decide
    · subst he
      intro v hv
      obtain ⟨i, hveq⟩ := hval _ v hv
      rw [(genDataRow_values hs hb i (draws i)).2.2.1] at hveq
      split_ifs at hveq
      · subst hveq
        left
        rfl
      · subst hveq
        right
        decide
      · subst hveq
        right
        decide
    · subst he
      intro v hv
      obtain ⟨i, hveq⟩ := hval _ v hv
      rw [(genDataRow_values hs hb i (draws i)).2.2.2.2.2.2.2.2.1] at hveq
      split_ifs at hveq
      · rcases rnd_choice4 "1" "2" "3" "4" (draws i).satIdx with h | h | h | h <;>
          rw [h] at hveq <;> subst hveq <;> right <;> decide
      · subst hveq
        left
        rfl
    · subst he
      intro v hv
      obtain ⟨i, hveq⟩ := hval _ v hv
      rw [(genDataRow_values hs hb i (draws i)).2.2.2.2.2.2.2.2.2.1] at hveq
      split_ifs at hveq
      · rcases rnd_choice2 "0" "1" ((draws i).adlsIdx 0) with h | h <;> rw [h] at hveq <;>
          subst hveq <;> right <;> decide
      · subst hveq
        left
        rfl
    · subst he
      intro v hv
      obtain ⟨i, hveq⟩ := hval _ v hv
      rw [(genDataRow_values hs hb i (draws i)).2.2.2.2.2.2.2.2.2.2.1] at hveq
      split_ifs at hveq
      · rcases rnd_choice2 "0" "1" ((draws i).adlsIdx 1) with h | h <;> rw [h] at hveq <;>
          subst hveq <;> right <;> decide
      · subst hveq
        left
        rfl
    · subst he
      intro v hv
      obtain ⟨i, hveq⟩ := hval _ v hv
      rw [(genDataRow_values hs hb i (draws i)).2.2.2.2.2.2.2.2.2.2.2.1] at hveq
      split_ifs at hveq
      · rcases rnd_choice2 "0" "1" ((draws i).adlsIdx 2) with h | h <;> rw [h] at hveq <;>
          subst hveq <;> right <;> decide
      · subst hveq
        left
        rfl
  unfold runChecks
  simp only [List.filter_append]
  rw [check_columns_clean, check_rename_clean, check_checkbox_clean, htypes, hdomains,
      check_matrix_clean,
      filter_error_of_warn _ (check_unit_anomaly_warn _ _ _),
      filter_error_of_warn _ (check_missingness_spike_warn _ _),
      filter_error_of_warn _ (check_branching_warn _ _ _)]
  simp

end DD

namespace DD

set_option maxRecDepth 40000

/-! ## C7: integer type-mismatch characterization -/

theorem mem_keys_pyDictInsert {α} (x k : String) (v : α) (d : List (String × α))
    (h : x ∈ (pyDictInsert k v d).map (·.1)) : x = k ∨ x ∈ d.map (·.1) := by
  induction d with
  | nil =>
    rw [show pyDictInsert k v [] = [(k, v)] from rfl, List.map_cons] at h
    rcases List.mem_cons.mp h with h1 | h1
    · exact Or.inl h1
    · simp at h1
  | cons p t ih =>
    obtain ⟨pk, pv⟩ := p
    unfold pyDictInsert at h
    split_ifs at h with hk
    · rw [List.map_cons] at h
      rcases List.mem_cons.mp h with h1 | h1
      · exact Or.inl h1
      · right
        rw [List.map_cons]
        exact List.mem_cons.mpr (Or.inr h1)
    · rw [List.map_cons] at h
      rcases List.mem_cons.mp h with h1 | h1
      · right
        rw [List.map_cons]
        exact List.mem_cons.mpr (Or.inl h1)
      · rcases ih h1 with h2 | h2
        · exact Or.inl h2
        · right
          rw [List.map_cons]
          exact List.mem_cons.mpr (Or.inr h2)

theorem pyDictInsert_keys_nodup {α} (k : String) (v : α) (d : List (String × α))
    (h : (d.map (·.1)).Nodup) : ((pyDictInsert k v d).map (·.1)).Nodup := by
  induction d with
  | nil => simp [pyDictInsert]
  | cons p t ih =>
    obtain ⟨pk, pv⟩ := p
    rw [List.map_cons] at h
    obtain ⟨hp, ht⟩ := List.nodup_cons.mp h
    unfold pyDictInsert
    split_ifs with hk
    · rw [List.map_cons, List.nodup_cons]
      constructor
      · intro hcontra
        exact hp (hk ▸ hcontra)
      · exact ht
    · rw [List.map_cons, List.nodup_cons]
      refine ⟨fun hcontra => ?_, ih ht⟩
      rcases mem_keys_pyDictInsert _ _ _ _ hcontra with h1 | h1
      · exact hk h1
      · exact hp h1

theorem checkTypesEntries_keys_nodup (dd : Dictionary) (cols : List String) :
    ((checkTypesEntries dd cols).map (·.1)).Nodup := by
  unfold checkTypesEntries
  rw [List.map_map]
  have : ∀ (fields : List DictField) (acc : List (String × String × String)),
      (acc.map (·.1)).Nodup →
      ((fields.foldl (fun acc f =>
        if f.field_type = "text" &&
           (f.validation = "integer" || f.validation = "number" || f.validation = "date_ymd" ||
            f.validation = "date_mdy" || f.validation = "datetime_ymd") then
          if cols.contains f.var then
            pyDictInsert f.var (f.var, f.validation) acc
          else
            match (buildRenameMap dd cols).find? (fun p => p.1 = f.var) with
            | some p => pyDictInsert f.var (p.2, f.validation) acc
            | none => acc
        else acc) acc).map (·.1)).Nodup := by
    intro fields
    induction fields with
    | nil => intro acc h; simpa using h
    | cons f t ih =>
      intro acc h
      rw [List.foldl_cons]
      apply ih
      split_ifs
      · exact pyDictInsert_keys_nodup _ _ _ h
      · cases (buildRenameMap dd cols).find? (fun p => p.1 = f.var) with
        | some p => exact pyDictInsert_keys_nodup _ _ _ h
        | none => exact h
      · exact h
  have h2 := this dd.fields [] (by simp)
  convert h2 using 2

theorem flatMap_filter_key (entries : List (String × String × String))
    (g : String × String × String → List Finding) (va : String)
    (hvar : ∀ e f, f ∈ g e → f.var = e.1)
    (hnd : (entries.map (·.1)).Nodup)
    (e0 : String × String × String) (hmem : e0 ∈ entries) (he0 : e0.1 = va) :
    (entries.flatMap g).filter (fun f => f.var = va) = g e0 := by
  induction entries with
  | nil => cases hmem
  | cons a t ih =>
    rw [List.flatMap_cons, List.filter_append]
    rw [List.map_cons] at hnd
    obtain ⟨hand, hnd2⟩ := List.nodup_cons.mp hnd
    rcases List.mem_cons.mp hmem with rfl | hmem2
    · have h1 : (g e0).filter (fun f => f.var = va) = g e0 := by
        rw [List.filter_eq_self]
        intro f hf
        simp [hvar e0 f hf, he0]
      have h2 : (t.flatMap g).filter (fun f => f.var = va) = [] := by
        rw [List.filter_eq_nil_iff]
        intro f hf
        rw [List.mem_flatMap] at hf
        obtain ⟨e, he, hfe⟩ := hf
        rw [hvar e f hfe]
        simp only [decide_eq_true_eq]
        intro hcontra
        exact hand (he0 ▸ hcontra ▸ List.mem_map_of_mem _ he)
      rw [h1, h2, List.append_nil]
    · have ha : a.1 ≠ va := by
        intro hcontra
        exact hand (hcontra ▸ he0 ▸ List.mem_map_of_mem (·.1) hmem2)
      have h1 : (g a).filter (fun f => f.var = va) = [] := by
        rw [List.filter_eq_nil_iff]
        intro f hf
        rw [hvar a f hf]
        simp [ha]
      rw [h1, List.nil_append]
      exact ih hnd2 hmem2

/-- C7.  For every integer-validated text field present in the dataset (an
entry of the `var_to_dscol` scan table keyed and targeted at the same
column) with at least one non-empty sampled value, `check_types` emits
exactly one finding for that variable — of type `type_mismatch`, severity
error, `expected = "numeric"`, up to five failing examples and
`rows_affected` equal to the number of non-parsing sampled values — if and
only if the fraction of non-empty sampled values parsing as base-10
integers is below 0.95, and emits nothing for it otherwise. -/
theorem claim_C7_integer_type_mismatch_characterization (dd : Dictionary) (rows : List DataRow)
    (cols : List String) (va : String)
    (hmem : (va, va, "integer") ∈ checkTypesEntries dd cols)
    (hvl : (collectCol rows va).filter (fun v => v ≠ "") ≠ []) :
    (check_types dd rows cols).filter (fun f => f.var = va) =
      (if ((((collectCol rows va).filter (fun v => v ≠ "")).countP (fun v => is_int v) : Rat) /
           (((collectCol rows va).filter (fun v => v ≠ "")).length : Rat) < 95/100) then
        [{ type := "type_mismatch", var := va, severity := "error",
           whereLoc := [("dataset_column", va)],
           expected := some (Json.str "numeric"), observed := some (Json.str "string"),
           examples := some (examplesUpTo ((collectCol rows va).filter (fun v => v ≠ ""))
             (fun v => !is_int v)),
           rows_affected := some (((collectCol rows va).filter (fun v => v ≠ "")).length -
             ((collectCol rows va).filter (fun v => v ≠ "")).countP (fun v => is_int v)) }]
      else []) := by
  unfold check_types
  rw [flatMap_filter_key _ _ va ?hvar (checkTypesEntries_keys_nodup dd cols) _ hmem rfl]
  case hvar =>
    intro e f hf
    dsimp only at hf
    split_ifs at hf <;> simp_all
  have h0 : ¬ ((((collectCol rows va).filter (fun v => v ≠ "")).isEmpty) = true) := by
    simpa [List.isEmpty_iff] using hvl
  simp only [if_neg h0]
  rfl

/-- The concrete scenario of the specification: the `age` column of a
200-row dataset where 40 values carry a letter suffix. -/
def ageDict : Dictionary :=
  loadDictionary [{ variable_name := "age", field_type := "text",
                    text_validation_type_or_show_slider_number := "integer" }]

def ageRows : List DataRow :=
  (List.range 200).map fun i => [("age", if i < 40 then "45x" else "45")]

/-- Witness for C7: 160/200 = 0.80 < 0.95, so exactly one `type_mismatch`
finding for `age` with `rows_affected = 40` and `expected = "numeric"`. -/
theorem claim_C7_integer_type_mismatch_characterization_witness :
    ((("age", "age", "integer") ∈ checkTypesEntries ageDict ["age"]) ∧
     (collectCol ageRows "age").filter (fun v => v ≠ "") ≠ []) ∧
    (check_types ageDict ageRows ["age"]).filter (fun f => f.var = "age") =
      [{ type := "type_mismatch", var := "age", severity := "error",
         whereLoc := [("dataset_column", "age")],
         expected := some (Json.str "numeric"), observed := some (Json.str "string"),
         examples := some ["45x", "45x", "45x", "45x", "45x"],
         rows_affected := some 40 }] :=
  ⟨⟨by decide, by decide⟩,
   (claim_C7_integer_type_mismatch_characterization ageDict ageRows ["age"] "age" (by decide) (by decide)).trans (by
    rw [if_pos (by
      rw [show ((collectCol ageRows "age").filter (fun v => v ≠ "")).countP
            (fun v => is_int v) = 160 from rfl,
          show ((collectCol ageRows "age").filter (fun v => v ≠ "")).length = 200 from rfl]
      norm_num)]
    rfl)⟩

/-! ## C2: the driver omits four checks of the specified fixed list -/

/-- A dictionary whose dataset exhibits duplicate primary keys, a fully
missing required field and a longitudinal meta column all at once. -/
def c2Dict : Dictionary :=
  loadDictionary
    [{ variable_name := "record_id", field_type := "text",
       text_validation_type_or_show_slider_number := "integer", required_field := "y" },
     { variable_name := "age", field_type := "text", required_field := "y" }]

def c2Cols : List String := ["record_id", "age", "redcap_event_name"]

def c2Rows : List DataRow :=
  (List.range 20).map fun _ => [("record_id", "1"), ("age", ""), ("redcap_event_name", "base")]

/-- C2.  The claim is false on the code: `dd_val.cli.main` does not run the
full fixed check list of the specification.  `check_primary_key`,
`check_required_fields`, `detect_export_mode_labels` and
`check_longitudinal_context` exist in `dd_val.checks` but are never invoked
by the driver (cli.py lines 137-147).  On this input the omitted checks
each fire — duplicate primary keys, a fully missing required field, a
longitudinal meta column — yet the engine concatenation `runChecks` emits
no finding at all. -/
theorem claim_C2_driver_omits_primary_key_required_and_context_checks :
    (check_primary_key c2Dict c2Rows c2Cols).map (fun f => (f.type, f.severity)) =
      [("duplicate_primary_key_values", "error")] ∧
    (check_required_fields c2Dict c2Rows c2Cols).map (fun f => (f.type, f.severity)) =
      [("required_field_missing_rate_high", "error")] ∧
    (check_longitudinal_context c2Rows c2Cols).map (fun f => (f.type, f.severity)) =
      [("longitudinal_context_detected", "info")] ∧
    runChecks c2Dict c2Cols c2Rows = [] := by
  refine ⟨by rfl, ?_, by rfl, ?_⟩
  · unfold check_required_fields
    rw [show ((c2Dict.fields.filter fun f => f.required && c2Cols.contains f.var).map (·.var)) =
        ["record_id", "age"] from rfl]
    rw [List.flatMap_cons, List.flatMap_cons, List.flatMap_nil]
    dsimp only
    rw [show collectCol c2Rows "record_id" = List.replicate 20 "1" from rfl,
        show collectCol c2Rows "age" = List.replicate 20 "" from rfl,
        show List.countP (fun v => decide (pyStrip v = "")) (List.replicate 20 "1") = 0 from rfl,
        show List.countP (fun v => decide (pyStrip v = "")) (List.replicate 20 "") = 20 from rfl]
    norm_num
  · have htypes : check_types c2Dict c2Rows c2Cols = [] :=
      check_types_eq_nil _ _ _ (by decide)
    have hdoms : check_domains c2Dict c2Rows c2Cols = [] :=
      check_domains_eq_nil _ _ _ (by decide)
    unfold runChecks
    rw [htypes, hdoms]
    rfl

/-! ## C10: checkbox-prefixed dataset columns are never generic extras -/

/-- C10.  `check_columns` never reports a dataset column as
`extra_column_in_data` when the part of its name before the first `___`
equals a declared checkbox variable, even when the code suffix corresponds
to no declared choice; such an undeclared expansion column present in the
dataset is surfaced by `check_checkbox_mismatch` as one error-severity
`checkbox_expansion_mismatch` finding on the checkbox variable whose
`observed_added` payload lists the column. -/
theorem claim_C10_checkbox_prefix_never_generic_extra :
    (∀ (dd : Dictionary) (cols : List String) (col : String),
      ((dd.fields.filter (fun f => f.field_type = "checkbox")).map (·.var)).contains
        (splitFirst "___" col) = true →
      ∀ f ∈ check_columns dd cols, f.type = "extra_column_in_data" → f.var ≠ col) ∧
    (∀ (dd : Dictionary) (cols : List String) (col : String) (f0 : DictField),
      f0 ∈ dd.fields → f0.field_type = "checkbox" →
      startsWithStr (f0.var ++ "___") col = true → col ∈ cols →
      (checkboxExpectedCols f0).contains col = false →
      ∃ g ∈ check_checkbox_mismatch dd cols,
        g.type = "checkbox_expansion_mismatch" ∧ g.severity = "error" ∧ g.var = f0.var ∧
        ∃ obs : List (String × Json), g.observed = some (Json.obj obs) ∧
          ∃ added : List String,
            ("observed_added", Json.arr (added.map Json.str)) ∈ obs ∧ col ∈ added) := by
  constructor
  · intro dd cols col hbase f hf hty
    unfold check_columns at hf
    rcases List.mem_append.mp hf with hf | hf
    · rw [List.mem_flatMap] at hf
      obtain ⟨fd, _, hf⟩ := hf
      split_ifs at hf
      · rw [List.mem_filterMap] at hf
        obtain ⟨c, _, hc⟩ := hf
        split_ifs at hc
        injection hc with hc
        subst hc
        simp at hty
      · rw [List.mem_singleton] at hf
        subst hf
        simp at hty
      · cases hf
    · rw [List.mem_filterMap] at hf
      obtain ⟨c, hcmem, hc⟩ := hf
      split_ifs at hc with h1 h2
      injection hc with hc
      subst hc
      intro hcontra
      subst hcontra
      rw [hbase] at h1
      exact h1 rfl
  · intro dd cols col f0 hf0 hft hpre hcol hnexp
    have hcoladd : col ∈ pySorted ((cols.dedup).filter fun c =>
        startsWithStr (f0.var ++ "___") c && !(checkboxExpectedCols f0).contains c) := by
      have hmemf : col ∈ (cols.dedup).filter fun c =>
          startsWithStr (f0.var ++ "___") c && !(checkboxExpectedCols f0).contains c :=
        List.mem_filter.mpr ⟨List.mem_dedup.mpr hcol, by
          simp only [hpre, Bool.true_and, Bool.not_eq_true]
          simpa using hnexp⟩
      exact ((List.perm_insertionSort _ _).mem_iff).mpr hmemf
    have hadded : (pySorted ((cols.dedup).filter fun c =>
        startsWithStr (f0.var ++ "___") c && !(checkboxExpectedCols f0).contains c)) ≠ [] :=
      List.ne_nil_of_mem hcoladd
    refine ⟨{ type := "checkbox_expansion_mismatch", var := f0.var, severity := "error",
              whereLoc := [("dataset_column", f0.var)],
              observed := some (Json.obj
                ((if (pySorted ((cols.dedup).filter fun c =>
                      startsWithStr (f0.var ++ "___") c &&
                      !(checkboxExpectedCols f0).contains c)) ≠ [] then
                    [("observed_added", Json.arr ((pySorted ((cols.dedup).filter fun c =>
                      startsWithStr (f0.var ++ "___") c &&
                      !(checkboxExpectedCols f0).contains c)).map Json.str))]
                  else []) ++
                 (if (pySorted ((checkboxExpectedCols f0).filter fun c => !cols.contains c)) ≠ [] then
                    [("expected_missing", Json.arr ((pySorted ((checkboxExpectedCols f0).filter
                      fun c => !cols.contains c)).map Json.str))]
                  else []))) }, ?_, rfl, rfl, rfl, ?_⟩
    · unfold check_checkbox_mismatch
      rw [List.mem_flatMap]
      refine ⟨f0, hf0, ?_⟩
      dsimp only
      rw [if_neg (by simp [hft]), if_pos (by
        rw [Bool.or_eq_true]
        exact Or.inl (by simpa using hadded))]
      exact List.mem_singleton.mpr rfl
    · refine ⟨_, rfl, pySorted ((cols.dedup).filter fun c =>
        startsWithStr (f0.var ++ "___") c && !(checkboxExpectedCols f0).contains c), ?_, hcoladd⟩
      rw [if_pos hadded]
      exact List.mem_append.mpr (Or.inl (List.mem_singleton.mpr rfl))

def cbDict : Dictionary :=
  loadDictionary [{ variable_name := "symptoms", field_type := "checkbox",
                    choices_calculations_or_slider_labels := "1,Cough" }]

def cbField : DictField :=
  cbDict.fields.headD
    { var := "", form_name := "", field_type := "", field_label := "", choices := [],
      validation := "", vmin := none, vmax := none, identifier := false, required := false,
      branching_logic := "", matrix_group := "", raw := {} }

/-- Witness for C10 at the undeclared expansion column `symptoms___999`. -/
theorem claim_C10_checkbox_prefix_never_generic_extra_witness :
    (∀ f ∈ check_columns cbDict ["symptoms___999"],
      f.type = "extra_column_in_data" → f.var ≠ "symptoms___999") ∧
    (∃ g ∈ check_checkbox_mismatch cbDict ["symptoms___999"],
      g.type = "checkbox_expansion_mismatch" ∧ g.severity = "error" ∧ g.var = cbField.var ∧
      ∃ obs : List (String × Json), g.observed = some (Json.obj obs) ∧
        ∃ added : List String,
          ("observed_added", Json.arr (added.map Json.str)) ∈ obs ∧ "symptoms___999" ∈ added) :=
  ⟨claim_C10_checkbox_prefix_never_generic_extra.1 cbDict ["symptoms___999"] "symptoms___999"
    (by decide),
   claim_C10_checkbox_prefix_never_generic_extra.2 cbDict ["symptoms___999"] "symptoms___999"
    cbField (by decide) (by decide) (by decide) (by decide) (by decide)⟩

end DD

namespace DD

/-! ## C5: loader degradation -/

/-- C5 counterexample.  The claim is false for malformed content: `json.loads`
of a malformed `gold.json` raises inside `_load_gold_and_findings` and nothing
in `score_corpus` catches it, so the scorer aborts instead of treating the
file as an empty list. -/
theorem claim_C5_scorer_raises_on_malformed :
    load_gold_and_findings FileState.malformed FileState.missing = Except.error () ∧
    score_corpus "variable" [(FileState.malformed, FileState.missing)] = Except.error () :=
  ⟨rfl, rfl⟩

/-- C5 (amended).  Only a *missing* `gold.json` or `findings.json` is treated
as the empty list by the scorer's loader; parsed content is passed through
(an object document contributes its `findings` member, absent defaulting to
`[]`).  The since-last-run resolver's `_read_prev` does degrade on both
missing and malformed files, returning `None` rather than raising. -/
theorem claim_C5_missing_treated_empty_resolver_total :
    (load_gold_and_findings FileState.missing FileState.missing
      = Except.ok (([] : List Issue), ([] : List Issue))) ∧
    (∀ g : List Issue,
      load_gold_and_findings (FileState.parsed g) FileState.missing = Except.ok (g, [])) ∧
    (∀ fl : List Issue,
      load_gold_and_findings FileState.missing (FileState.parsed (FindingsDoc.jlist fl))
        = Except.ok ([], fl)) ∧
    (∀ fo : Option (List Issue),
      load_gold_and_findings FileState.missing (FileState.parsed (FindingsDoc.jobj fo))
        = Except.ok ([], fo.getD [])) ∧
    (∀ α : Type, read_prev (FileState.missing : FileState α) = none ∧
      read_prev (FileState.malformed : FileState α) = none) :=
  ⟨rfl, fun _ => rfl, fun _ => rfl, fun _ => rfl, fun _ => ⟨rfl, rfl⟩⟩

end DD

namespace DD

theorem dumps_str (s : String) : dumps (Json.str s) = "\"" ++ jsonEscape s ++ "\"" := by
  rw [dumps]

theorem dumps_arr (xs : List Json) :
    dumps (Json.arr xs) = "[" ++ String.intercalate ", " (xs.map dumps) ++ "]" := by
  rw [dumps]
  congr 1
  congr 1
  congr 1
  exact List.attach_map_val xs dumps

theorem dumps_obj (kvs : List (String × Json)) :
    dumps (Json.obj kvs) =
      "\x7b" ++ String.intercalate ", "
        (((kvs.map fun p => (p.1, dumps p.2)).insertionSort fun a b => a.1 ≤ b.1).map
          fun p => "\"" ++ jsonEscape p.1 ++ "\": " ++ p.2) ++ "\x7d" := by
  rw [dumps]
  congr 2
  congr 2
  congr 1
  exact List.attach_map_val kvs fun p => (p.1, dumps p.2)

instance keyLeTotal : IsTotal (String × String) fun a b => a.1 ≤ b.1 :=
  ⟨fun a b => le_total a.1 b.1⟩

instance keyLeTrans : IsTrans (String × String) fun a b => a.1 ≤ b.1 :=
  ⟨fun _ _ _ h1 h2 => le_trans h1 h2⟩

theorem eq_of_perm_of_sorted_nodup_keys :
    ∀ (l1 l2 : List (String × String)), l1.Perm l2 →
      l1.Sorted (fun a b => a.1 ≤ b.1) → l2.Sorted (fun a b => a.1 ≤ b.1) →
      (l1.map Prod.fst).Nodup → l1 = l2
  | [], l2, hp, _, _, _ => (hp.nil_eq).symm ▸ rfl
  | a :: t1, [], hp, _, _, _ => absurd hp.length_eq (by simp)
  | a :: t1, b :: t2, hp, hs1, hs2, hnd => by
    have hab : a = b := by
      have hbin : b ∈ a :: t1 := hp.mem_iff.mpr (List.mem_cons_self b t2)
      have hain : a ∈ b :: t2 := hp.mem_iff.mp (List.mem_cons_self a t1)
      rcases List.mem_cons.mp hbin with h | hbt1
      · exact h.symm
      · rcases List.mem_cons.mp hain with h | hat2
        · exact h
        · have h1 : a.1 ≤ b.1 := (List.sorted_cons.mp hs1).1 b hbt1
          have h2 : b.1 ≤ a.1 := (List.sorted_cons.mp hs2).1 a hat2
          have hk : a.1 = b.1 := le_antisymm h1 h2
          exfalso
          have := (List.nodup_cons.mp hnd).1
          exact this (hk ▸ (List.mem_map.mpr ⟨b, hbt1, rfl⟩))
    subst hab
    have ht := eq_of_perm_of_sorted_nodup_keys t1 t2 (hp.cons_inv)
      (List.sorted_cons.mp hs1).2 (List.sorted_cons.mp hs2).2 (List.nodup_cons.mp hnd).2
    rw [ht]

theorem dumps_obj_perm (kvs1 kvs2 : List (String × Json)) (hperm : kvs1.Perm kvs2)
    (hnd : (kvs1.map Prod.fst).Nodup) :
    dumps (Json.obj kvs1) = dumps (Json.obj kvs2) := by
  rw [dumps_obj, dumps_obj]
  congr 2
  congr 1
  congr 1
  have hr : (kvs1.map fun p => (p.1, dumps p.2)).Perm (kvs2.map fun p => (p.1, dumps p.2)) :=
    hperm.map _
  have hndr : ((kvs1.map fun p => (p.1, dumps p.2)).map Prod.fst).Nodup := by
    rw [List.map_map]
    exact hnd
  apply eq_of_perm_of_sorted_nodup_keys
  · exact ((List.perm_insertionSort _ _).trans hr).trans (List.perm_insertionSort _ _).symm
  · exact List.sorted_insertionSort _ _
  · exact List.sorted_insertionSort _ _
  · exact ((List.perm_insertionSort _ _).map Prod.fst).nodup_iff.mpr hndr

end DD

namespace DD

/-- C8 counterexample.  The strict-mode key is not order-independent for
list payloads: `json.dumps(..., sort_keys=True)` sorts only object keys, so
two issues of the same type and variable whose `expected` lists hold the
same elements in different orders receive different keys. -/
theorem claim_C8_counterexample_list_element_order :
    scoreKey "strict"
        { type := "t", var := "v", expected := some (Json.arr [Json.str "a", Json.str "b"]) } ≠
      scoreKey "strict"
        { type := "t", var := "v", expected := some (Json.arr [Json.str "b", Json.str "a"]) } := by
  simp only [scoreKey, dumps_arr, dumps_str, List.map_cons, List.map_nil]
  decide

/-- C8 (amended).  The order-independence of the strict match key holds for
*object* payloads: when both issues' `expected` (resp. `observed`) object
members are permutations of each other with distinct keys, `sort_keys=True`
canonicalizes the serialization and the keys are equal.  It fails for list
payloads (see the counterexample). -/
theorem claim_C8_strict_key_object_member_order_independent
    (t v : String) (e1 e2 o1 o2 : List (String × Json))
    (hpe : e1.Perm e2) (hnde : (e1.map Prod.fst).Nodup)
    (hpo : o1.Perm o2) (hndo : (o1.map Prod.fst).Nodup) :
    scoreKey "strict"
        { type := t, var := v, expected := some (Json.obj e1), observed := some (Json.obj o1) }
      = scoreKey "strict"
        { type := t, var := v, expected := some (Json.obj e2), observed := some (Json.obj o2) } := by
  have h1 := dumps_obj_perm e1 e2 hpe hnde
  have h2 := dumps_obj_perm o1 o2 hpo hndo
  simp [scoreKey, h1, h2]

/-- Witness for the amended C8 at a two-member object payload given in the
two possible member orders. -/
theorem claim_C8_strict_key_object_member_order_independent_witness :
    scoreKey "strict"
        { type := "t", var := "v",
          expected := some (Json.obj [("b", Json.str "1"), ("a", Json.str "2")]),
          observed := some (Json.obj [("b", Json.str "1"), ("a", Json.str "2")]) }
      = scoreKey "strict"
        { type := "t", var := "v",
          expected := some (Json.obj [("a", Json.str "2"), ("b", Json.str "1")]),
          observed := some (Json.obj [("a", Json.str "2"), ("b", Json.str "1")]) } :=
  claim_C8_strict_key_object_member_order_independent "t" "v"
    [("b", Json.str "1"), ("a", Json.str "2")] [("a", Json.str "2"), ("b", Json.str "1")]
    [("b", Json.str "1"), ("a", Json.str "2")] [("a", Json.str "2"), ("b", Json.str "1")]
    (List.Perm.swap ("a", Json.str "2") ("b", Json.str "1") [])
    (by decide)
    (List.Perm.swap ("a", Json.str "2") ("b", Json.str "1") [])
    (by decide)

end DD

namespace DD

theorem goldKeys_append (mode : String) (r : Run) (g : Issue) :
    goldKeys mode { gold := r.gold ++ [g], findings := r.findings } =
      insert (scoreKey mode g) (goldKeys mode r) := by
  ext x
  simp [goldKeys, or_comm]

theorem predKeys_append (mode : String) (r : Run) (f : Issue) :
    predKeys mode { gold := r.gold, findings := r.findings ++ [f] } =
      insert (scoreKey mode f) (predKeys mode r) := by
  ext x
  simp [predKeys, or_comm]

theorem goldKeys_append_pred (mode : String) (r : Run) (g : Issue) :
    predKeys mode { gold := r.gold ++ [g], findings := r.findings } = predKeys mode r := rfl

theorem predKeys_append_gold (mode : String) (r : Run) (f : Issue) :
    goldKeys mode { gold := r.gold, findings := r.findings ++ [f] } = goldKeys mode r := rfl

theorem tpRun_append_fp (mode t : String) (r : Run) (f : Issue)
    (hfg : scoreKey mode f ∉ goldKeys mode r) :
    tpRun mode t { gold := r.gold, findings := r.findings ++ [f] } = tpRun mode t r := by
  unfold tpRun
  rw [predKeys_append, predKeys_append_gold]
  rw [Finset.inter_comm, Finset.insert_inter_of_not_mem hfg, Finset.inter_comm]

theorem fpRun_append_fp (mode t : String) (r : Run) (f : Issue)
    (hf1 : (scoreKey mode f).1 = t)
    (hfg : scoreKey mode f ∉ goldKeys mode r) (hfp : scoreKey mode f ∉ predKeys mode r) :
    fpRun mode t { gold := r.gold, findings := r.findings ++ [f] } = fpRun mode t r + 1 := by
  unfold fpRun
  rw [predKeys_append, predKeys_append_gold]
  rw [Finset.insert_sdiff_of_not_mem _ hfg]
  rw [Finset.filter_insert, if_pos hf1]
  rw [Finset.card_insert_of_not_mem (by
    intro hmem
    exact hfp (Finset.mem_sdiff.mp (Finset.mem_filter.mp hmem).1).1)]

theorem fnRun_append_fp (mode t : String) (r : Run) (f : Issue)
    (hfg : scoreKey mode f ∉ goldKeys mode r) :
    fnRun mode t { gold := r.gold, findings := r.findings ++ [f] } = fnRun mode t r := by
  unfold fnRun
  rw [predKeys_append, predKeys_append_gold]
  rw [Finset.sdiff_insert, Finset.erase_eq_of_not_mem (by
    intro hmem
    exact hfg (Finset.mem_sdiff.mp hmem).1)]

theorem tpRun_append_fn (mode t : String) (r : Run) (g : Issue)
    (hgp : scoreKey mode g ∉ predKeys mode r) :
    tpRun mode t { gold := r.gold ++ [g], findings := r.findings } = tpRun mode t r := by
  unfold tpRun
  rw [goldKeys_append, goldKeys_append_pred]
  rw [Finset.insert_inter_of_not_mem hgp]

theorem fnRun_append_fn (mode t : String) (r : Run) (g : Issue)
    (hg1 : (scoreKey mode g).1 = t)
    (hgg : scoreKey mode g ∉ goldKeys mode r) (hgp : scoreKey mode g ∉ predKeys mode r) :
    fnRun mode t { gold := r.gold ++ [g], findings := r.findings } = fnRun mode t r + 1 := by
  unfold fnRun
  rw [goldKeys_append, goldKeys_append_pred]
  rw [Finset.insert_sdiff_of_not_mem _ hgp]
  rw [Finset.filter_insert, if_pos hg1]
  rw [Finset.card_insert_of_not_mem (by
    intro hmem
    exact hgg (Finset.mem_sdiff.mp (Finset.mem_filter.mp hmem).1).1)]

theorem fpRun_append_fn (mode t : String) (r : Run) (g : Issue)
    (hgp : scoreKey mode g ∉ predKeys mode r) :
    fpRun mode t { gold := r.gold ++ [g], findings := r.findings } = fpRun mode t r := by
  unfold fpRun
  rw [goldKeys_append, goldKeys_append_pred]
  rw [Finset.sdiff_insert, Finset.erase_eq_of_not_mem (by
    intro hmem
    exact hgp (Finset.mem_sdiff.mp hmem).1)]

theorem tpAgg_middle (mode t : String) (pre post : List Run) (r r2 : Run)
    (h : tpRun mode t r2 = tpRun mode t r) :
    tpAgg mode t (pre ++ r2 :: post) = tpAgg mode t (pre ++ r :: post) := by
  simp [tpAgg, h]

theorem fpAgg_middle (mode t : String) (pre post : List Run) (r r2 : Run)
    (h : fpRun mode t r2 = fpRun mode t r + 1) :
    fpAgg mode t (pre ++ r2 :: post) = fpAgg mode t (pre ++ r :: post) + 1 := by
  simp [fpAgg, h]
  omega

theorem fnAgg_middle (mode t : String) (pre post : List Run) (r r2 : Run)
    (h : fnRun mode t r2 = fnRun mode t r + 1) :
    fnAgg mode t (pre ++ r2 :: post) = fnAgg mode t (pre ++ r :: post) + 1 := by
  simp [fnAgg, h]
  omega

theorem fpAgg_middle_eq (mode t : String) (pre post : List Run) (r r2 : Run)
    (h : fpRun mode t r2 = fpRun mode t r) :
    fpAgg mode t (pre ++ r2 :: post) = fpAgg mode t (pre ++ r :: post) := by
  simp [fpAgg, h]

theorem fnAgg_middle_eq (mode t : String) (pre post : List Run) (r r2 : Run)
    (h : fnRun mode t r2 = fnRun mode t r) :
    fnAgg mode t (pre ++ r2 :: post) = fnAgg mode t (pre ++ r :: post) := by
  simp [fnAgg, h]

theorem ratio_mono (tp fp : Nat) :
    (if tp + (fp + 1) = 0 then (0 : Rat) else (tp : Rat) / (tp + (fp + 1))) ≤
      (if tp + fp = 0 then (0 : Rat) else (tp : Rat) / (tp + fp)) ∧
    ((if tp + (fp + 1) = 0 then (0 : Rat) else (tp : Rat) / (tp + (fp + 1))) <
      (if tp + fp = 0 then (0 : Rat) else (tp : Rat) / (tp + fp)) ↔ 0 < tp) := by
  rw [if_neg (by omega)]
  rcases Nat.eq_zero_or_pos tp with h0 | hpos
  · subst h0
    rcases Nat.eq_zero_or_pos fp with hf0 | hfpos
    · subst hf0
      norm_num
    · rw [if_neg (by omega)]
      norm_num
  · rw [if_neg (by omega)]
    have h1 : (0 : Rat) < tp := by exact_mod_cast hpos
    have h2 : (0 : Rat) < (tp : Rat) + fp := by positivity
    have h3 : ((tp : Rat) + fp) < (tp : Rat) + (fp + 1) := by linarith
    have hlt : (tp : Rat) / ((tp : Rat) + (fp + 1)) < (tp : Rat) / ((tp : Rat) + fp) :=
      div_lt_div_of_pos_left h1 h2 h3
    constructor
    · push_cast
      exact le_of_lt (by push_cast at hlt; linarith)
    · constructor
      · intro _
        exact hpos
      · intro _
        push_cast
        push_cast at hlt
        linarith

end DD

namespace DD

/-- C4 (amended).  Adding to one run's findings a fresh false-positive
finding of type `t` (key of type `t`, matching no gold key and no existing
finding key) weakly decreases type-`t` precision, strictly exactly when the
aggregated true-positive count is positive — not merely outside the 0/0
case; symmetrically, adding to the run's gold a fresh record of type `t`
whose key matches no finding weakly decreases recall, strictly exactly when
the true-positive count is positive. -/
theorem claim_C4_scoring_monotonicity (mode t : String) (pre post : List Run) (r : Run)
    (f g : Issue)
    (hf1 : (scoreKey mode f).1 = t)
    (hfg : scoreKey mode f ∉ goldKeys mode r) (hfp : scoreKey mode f ∉ predKeys mode r)
    (hg1 : (scoreKey mode g).1 = t)
    (hgg : scoreKey mode g ∉ goldKeys mode r) (hgp : scoreKey mode g ∉ predKeys mode r) :
    (precisionOf mode t (pre ++ { gold := r.gold, findings := r.findings ++ [f] } :: post) ≤
        precisionOf mode t (pre ++ r :: post) ∧
      (precisionOf mode t (pre ++ { gold := r.gold, findings := r.findings ++ [f] } :: post) <
          precisionOf mode t (pre ++ r :: post) ↔ 0 < tpAgg mode t (pre ++ r :: post))) ∧
    (recallOf mode t (pre ++ { gold := r.gold ++ [g], findings := r.findings } :: post) ≤
        recallOf mode t (pre ++ r :: post) ∧
      (recallOf mode t (pre ++ { gold := r.gold ++ [g], findings := r.findings } :: post) <
          recallOf mode t (pre ++ r :: post) ↔ 0 < tpAgg mode t (pre ++ r :: post))) := by
  have htpf := tpAgg_middle mode t pre post r _ (tpRun_append_fp mode t r f hfg)
  have hfpf := fpAgg_middle mode t pre post r _ (fpRun_append_fp mode t r f hf1 hfg hfp)
  have htpg := tpAgg_middle mode t pre post r _ (tpRun_append_fn mode t r g hgp)
  have hfng := fnAgg_middle mode t pre post r _ (fnRun_append_fn mode t r g hg1 hgg hgp)
  constructor
  · simp only [precisionOf]
    rw [htpf, hfpf]
    exact_mod_cast ratio_mono _ _
  · simp only [recallOf]
    rw [htpg, hfng]
    exact_mod_cast ratio_mono _ _

/-- Witness for the amended C4 on a one-run corpus with one true positive:
both decreases are strict. -/
theorem claim_C4_scoring_monotonicity_witness :
    (precisionOf "variable" "t"
        [{ gold := [{ type := "t", var := "v0" }],
           findings := [{ type := "t", var := "v0" }] ++ [{ type := "t", var := "v1" }] }] <
      precisionOf "variable" "t"
        [{ gold := [{ type := "t", var := "v0" }],
           findings := [{ type := "t", var := "v0" }] }]) ∧
    (recallOf "variable" "t"
        [{ gold := [{ type := "t", var := "v0" }] ++ [{ type := "t", var := "v2" }],
           findings := [{ type := "t", var := "v0" }] }] <
      recallOf "variable" "t"
        [{ gold := [{ type := "t", var := "v0" }],
           findings := [{ type := "t", var := "v0" }] }]) := by
  have h := claim_C4_scoring_monotonicity "variable" "t" [] []
    { gold := [{ type := "t", var := "v0" }], findings := [{ type := "t", var := "v0" }] }
    { type := "t", var := "v1" } { type := "t", var := "v2" }
    rfl (by decide) (by decide) rfl (by decide) (by decide)
  refine ⟨h.1.2.mpr (by decide), h.2.2.mpr (by decide)⟩

/-- C4 counterexample.  With zero true positives precision is 0 but not the
0/0 case, and adding a further false positive leaves it unchanged at 0: the
claim's "unchanged only if already 0/0" is false. -/
theorem claim_C4_counterexample_zero_tp :
    tpAgg "variable" "t" [{ gold := [], findings := [{ type := "t", var := "v1" }] }] +
        fpAgg "variable" "t" [{ gold := [], findings := [{ type := "t", var := "v1" }] }] ≠ 0 ∧
    precisionOf "variable" "t"
        [{ gold := [], findings := [{ type := "t", var := "v1" }, { type := "t", var := "v2" }] }] =
      precisionOf "variable" "t" [{ gold := [], findings := [{ type := "t", var := "v1" }] }] := by
  constructor
  · decide
  · simp only [precisionOf]
    rw [show tpAgg "variable" "t"
        [{ gold := [], findings := [{ type := "t", var := "v1" }, { type := "t", var := "v2" }] }]
        = 0 from rfl,
      show fpAgg "variable" "t"
        [{ gold := [], findings := [{ type := "t", var := "v1" }, { type := "t", var := "v2" }] }]
        = 2 from rfl,
      show tpAgg "variable" "t" [{ gold := [], findings := [{ type := "t", var := "v1" }] }]
        = 0 from rfl,
      show fpAgg "variable" "t" [{ gold := [], findings := [{ type := "t", var := "v1" }] }]
        = 1 from rfl]
    norm_num

end DD

namespace DD

theorem all_reverse_digits (l : List Char) (h : l.all isDigitChar = true) :
    l.reverse.all isDigitChar = true := by
  rw [List.all_reverse]
  exact h

theorem parseVSuffix_roundtrip (base : String) (hb : base.data ≠ []) (ver : Nat) :
    parseVSuffix (base ++ "_v" ++ natStr ver) = some (base, ver) := by
  have hrev : (base ++ "_v" ++ natStr ver).data.reverse =
      (natStr ver).data.reverse ++ 'v' :: '_' :: base.data.reverse := by
    simp [String.data_append, show ("_v" : String).data = ['_', 'v'] from rfl]
  have htake : ((natStr ver).data.reverse ++ 'v' :: '_' :: base.data.reverse).takeWhile
      isDigitChar = (natStr ver).data.reverse :=
    takeWhile_append_stop _ _ _ (all_reverse_digits _ (natStr_all_digits ver)) (by decide)
  have hne : ((natStr ver).data.reverse.isEmpty = true) → False := by
    intro h
    exact natStr_ne_nil ver (by simpa using List.isEmpty_iff.mp h)
  simp only [parseVSuffix, hrev, htake]
  rw [if_neg hne]
  rw [List.drop_left]
  show (if 'v' = 'v' ∧ '_' = '_' ∧ ¬(base.data.reverse.isEmpty = true) then
      some ((⟨base.data.reverse.reverse⟩ : String), digitsVal (natStr ver).data.reverse.reverse)
    else none) = some (base, ver)
  rw [if_pos ⟨rfl, rfl, by
    intro h
    exact hb (by simpa using List.isEmpty_iff.mp h)⟩]
  rw [List.reverse_reverse, List.reverse_reverse, digitsVal_natStr]

theorem parseVSuffix_bare_none (ver : Nat) : parseVSuffix ("v" ++ natStr ver) = none := by
  have hrev : ("v" ++ natStr ver).data.reverse = (natStr ver).data.reverse ++ ['v'] := by
    simp [String.data_append, show ("v" : String).data = ['v'] from rfl]
  have htake : ((natStr ver).data.reverse ++ ['v']).takeWhile isDigitChar =
      (natStr ver).data.reverse := by
    have h0 : ((natStr ver).data.reverse ++ 'v' :: ([] : List Char)).takeWhile isDigitChar =
        (natStr ver).data.reverse :=
      takeWhile_append_stop _ _ _ (all_reverse_digits _ (natStr_all_digits ver)) (by decide)
    simpa using h0
  have hne : ((natStr ver).data.reverse.isEmpty = true) → False := by
    intro h
    exact natStr_ne_nil ver (by simpa using List.isEmpty_iff.mp h)
  simp only [parseVSuffix, hrev, htake]
  rw [if_neg hne]
  rw [List.drop_left]

theorem parseBareV_roundtrip (ver : Nat) : parseBareV ("v" ++ natStr ver) = some ver := by
  have hdata : ("v" ++ natStr ver).data = 'v' :: (natStr ver).data := by
    simp [String.data_append, show ("v" : String).data = ['v'] from rfl]
  simp only [parseBareV, hdata]
  rw [if_pos ⟨by trivial, by
      intro h
      exact natStr_ne_nil ver (by simpa using List.isEmpty_iff.mp h),
    natStr_all_digits ver⟩]
  rw [digitsVal_natStr]

theorem isSuffixOf_append_self (l1 l2 : List Char) : l1.isSuffixOf (l2 ++ l1) = true := by
  rw [List.isSuffixOf]
  simp [List.reverse_append]

/-- C9.  The previous-findings resolution order and the skip behavior: an
explicit `--prev` wins; otherwise the `.prev` pointer is tried before
folder-naming inference; the inference probes `<base>_v<N-1>` for a
`<base>_v<N>` run name (N > 1, generic case), `<base>_perturbed` for
`<base>_perturbed_v2`, and sibling `v<N-1>` for a bare `v<N>` name,
resolving only when the candidate file exists; and when nothing resolves
(no previous path, or a path that does not exist), the driver's findings
list is just the converted check-engine output — the since-last-run records
are skipped and the run completes. -/
theorem claim_C9_prev_resolution_order_and_skip :
    (∀ (fs : FS) (cur p : FPath) (np : Bool), resolvePrev (some p) np fs cur = some p) ∧
    (∀ (fs : FS) (cur : FPath), resolvePrev none true fs cur = none) ∧
    (∀ (fs : FS) (cur q : FPath), infer_prev_from_pointer fs cur = some q →
      resolvePrev none false fs cur = some q) ∧
    (∀ (fs : FS) (cur : FPath), infer_prev_from_pointer fs cur = none →
      resolvePrev none false fs cur = infer_prev_findings fs cur) ∧
    (∀ (fs : FS) (parent : FPath) (base : String) (ver : Nat),
      base.data ≠ [] →
      ("_perturbed".data.isSuffixOf base.data && decide (10 < base.data.length)) = false →
      1 < ver →
      infer_prev_findings fs (parent ++ [base ++ "_v" ++ natStr ver]) =
        (if fs.pathExists (parent ++ [base ++ "_v" ++ intStr ((ver : Int) - 1), "findings.json"])
         then some (parent ++ [base ++ "_v" ++ intStr ((ver : Int) - 1), "findings.json"])
         else none)) ∧
    (∀ (fs : FS) (parent : FPath) (base : String),
      base.data ≠ [] →
      infer_prev_findings fs (parent ++ [base ++ "_perturbed" ++ "_v" ++ natStr 2]) =
        (if fs.pathExists (parent ++ [base ++ "_perturbed", "findings.json"])
         then some (parent ++ [base ++ "_perturbed", "findings.json"])
         else none)) ∧
    (∀ (fs : FS) (parent : FPath) (ver : Nat), 1 < ver →
      infer_prev_findings fs (parent ++ ["v" ++ natStr ver]) =
        (if fs.pathExists (parent ++ ["v" ++ intStr ((ver : Int) - 1), "findings.json"])
         then some (parent ++ ["v" ++ intStr ((ver : Int) - 1), "findings.json"])
         else none)) ∧
    (∀ (dd : Dictionary) (cols : List String) (rows : List DataRow) (fs : FS),
      mainFindings dd cols rows none fs = (runChecks dd cols rows).map OutFinding.gen) ∧
    (∀ (dd : Dictionary) (cols : List String) (rows : List DataRow) (fs : FS) (p : FPath),
      fs.pathExists p = false →
      mainFindings dd cols rows (some p) fs = (runChecks dd cols rows).map OutFinding.gen) := by
  refine ⟨fun fs cur p np => rfl, fun fs cur => rfl, ?_, ?_, ?_, ?_, ?_, ?_, ?_⟩
  · intro fs cur q h
    simp [resolvePrev, h]
  · intro fs cur h
    simp [resolvePrev, h]
  · intro fs parent base ver hb hnp hv
    have hpv : parsePerturbedV (base ++ "_v" ++ natStr ver) = none := by
      simp only [parsePerturbedV, parseVSuffix_roundtrip base hb ver, Option.some_bind]
      rw [if_neg (by rw [hnp]; exact Bool.false_ne_true)]
    simp only [infer_prev_findings, List.getLastD_concat, List.dropLast_concat, hpv,
      parseVSuffix_roundtrip base hb ver]
    rw [if_pos hv]
  · intro fs parent base hb
    have hrt : parseVSuffix ((base ++ "_perturbed") ++ "_v" ++ natStr 2) =
        some (base ++ "_perturbed", 2) :=
      parseVSuffix_roundtrip (base ++ "_perturbed") (by
        rw [String.data_append]
        intro h
        exact hb (List.append_eq_nil.mp h).1) 2
    have hpv : parsePerturbedV (base ++ "_perturbed" ++ "_v" ++ natStr 2) =
        some (base ++ "_perturbed", 2) := by
      simp only [parsePerturbedV, hrt, Option.some_bind]
      rw [if_pos (by
        rw [Bool.and_eq_true]
        constructor
        · rw [String.data_append]
          exact isSuffixOf_append_self _ _
        · rw [decide_eq_true_eq, String.data_append, List.length_append]
          have hlen : 0 < base.data.length := List.length_pos.mpr hb
          have h10 : ("_perturbed" : String).data.length = 10 := rfl
          omega)]
    simp only [infer_prev_findings, List.getLastD_concat, List.dropLast_concat, hpv, if_true]
  · intro fs parent ver hv
    have hpv : parsePerturbedV ("v" ++ natStr ver) = none := by
      simp only [parsePerturbedV, parseVSuffix_bare_none]
      rfl
    simp only [infer_prev_findings, List.getLastD_concat, List.dropLast_concat, hpv,
      parseVSuffix_bare_none, parseBareV_roundtrip]
    rw [if_pos hv]
  · intro dd cols rows fs
    rfl
  · intro dd cols rows fs p h
    simp [mainFindings, h]

def c9fs : FS :=
  { pathExists := fun p => p = ["corpus", "p1_perturbed", "findings.json"],
    isDir := fun _ => false,
    prevPtr := none,
    prevFile := fun _ => none }

/-- Witness for C9: in a corpus where only `corpus/p1_perturbed/findings.json`
exists and no `.prev` pointer is present, the resolver for the run directory
`corpus/p1_perturbed_v2` falls through to naming inference and resolves the
unversioned perturbed run. -/
theorem claim_C9_prev_resolution_order_and_skip_witness :
    resolvePrev none false c9fs ["corpus", "p1" ++ "_perturbed" ++ "_v" ++ natStr 2] =
      some ["corpus", "p1_perturbed", "findings.json"] := by
  have h := claim_C9_prev_resolution_order_and_skip
  rw [h.2.2.2.1 c9fs _ rfl]
  have h2 := h.2.2.2.2.2.1 c9fs ["corpus"] "p1" (by decide)
  rw [show ((["corpus"] : FPath) ++ ["p1" ++ "_perturbed" ++ "_v" ++ natStr 2]) =
    (["corpus", "p1" ++ "_perturbed" ++ "_v" ++ natStr 2] : FPath) from rfl] at h2
  rw [h2]
  rw [if_pos (by decide)]
  rfl

end DD

namespace DD

/-! ## `dd_eval.corrupt`: the since-last-run pass and the unit-anomaly recipe

`apply_corruptions` does not use its seeded generator everywhere: recipes 4,
5, 7, 8 and 9 read the module-global `random` stream.  The unit-anomaly
recipe (corrupt.py lines 139-153) is embedded below parameterized by the
Boolean stream `random.random() < 0.12` actually consumed, to exhibit the
dependence; `apply_since_last_run` (lines 288-312) uses only its own seeded
generator and is embedded with one abstract `randrange(0, 100)` draw per
row. -/

/-- One gold issue record as `_log` builds it: `type` and `variable` plus
the keyword payloads the two embedded recipes use. -/
structure GoldRec where
  type : String
  var : String
  expected_unit : Option String := none
  note : Option String := none
  observed_added : Option (List String) := none
  rows_affected : Option Nat := none
  deriving Repr, DecidableEq

/-- Python `s.strip(chars)`: both ends stripped of characters of the set. -/
def stripCharSet (cs : List Char) (l : List Char) : List Char :=
  ((l.dropWhile (fun c => cs.contains c)).reverse.dropWhile (fun c => cs.contains c)).reverse

def pyStripSet (cs : List Char) (s : String) : String := ⟨stripCharSet cs s.data⟩

/-- `f"{q:.1f}"` on the nonnegative heights this recipe formats: one
decimal, ties to even (Python float repr differences below that granularity
are not distinguished by any claim). -/
def fmt1f (q : Rat) : String :=
  let scaled := q * 10
  let fl := scaled.floor
  let frac := scaled - fl
  let n : Int := if 1 / 2 < frac then fl + 1
    else if frac < 1 / 2 then fl
    else if fl % 2 = 0 then fl else fl + 1
  intStr (n / 10) ++ "." ++ natStr ((n % 10).toNat)

/-- Recipe 4 of `apply_corruptions` (corrupt.py lines 139-153): convert a
subset of `height_cm` values to inches.  The gate `random.random() < 0.12`
reads the MODULE-GLOBAL generator, not the seeded `rng`; the stream `g`
supplies those draws in call order, so the result is a function of the
global interpreter state, not of the inputs and seed. -/
def corrupt_unit_anomaly (g : Nat → Bool) (x_rows : List DataRow) :
    List DataRow × List GoldRec :=
  let step : (List DataRow × Nat × Nat) → DataRow → (List DataRow × Nat × Nat) :=
    fun acc row =>
      let val := rowGet row "height_cm"
      if val ≠ "" ∧ strContainsSub "x" val = false then
        if g acc.2.1 then
          match pyFloatParse val with
          | some cm =>
            (acc.1 ++ [pyDictInsert "height_cm" (fmt1f (cm * (393701 / 1000000))) row],
             acc.2.1 + 1, acc.2.2 + 1)
          | none => (acc.1 ++ [row], acc.2.1 + 1, acc.2.2)
        else (acc.1 ++ [row], acc.2.1 + 1, acc.2.2)
      else (acc.1 ++ [row], acc.2.1, acc.2.2)
  let r := x_rows.foldl step ([], 0, 0)
  (r.1,
   if r.2.2 ≠ 0 then
     [{ type := "unit_anomaly", var := "height_cm", expected_unit := some "cm",
        note := some "subset appears inches", rows_affected := some r.2.2 }]
   else [])

/-- The `_dict_by_var` lookup: the dict comprehension keeps the last row per
`variable_name`, so `by_var[v]` is the last matching dictionary row. -/
def dictByVarLookup (rows : List DictRow) (v : String) : Option DictRow :=
  rows.reverse.find? (fun r => r.variable_name = v)

/-- In-place mutation of the row object `by_var["satisfaction"]` holds:
the last satisfaction row of the list is replaced. -/
def replaceFirstSat (f : DictRow → DictRow) : List DictRow → List DictRow
  | [] => []
  | r :: rest =>
    if r.variable_name = "satisfaction" then f r :: rest else r :: replaceFirstSat f rest

def replaceLastSat (f : DictRow → DictRow) (rows : List DictRow) : List DictRow :=
  (replaceFirstSat f rows.reverse).reverse

/-- The satisfaction-row update of `apply_since_last_run`:
`(raw + " | 5,Outstanding").strip(" | ")`. -/
def satUpdateRow (r : DictRow) : DictRow :=
  { r with
    choices_calculations_or_slider_labels :=
      pyStripSet [' ', '|'] (r.choices_calculations_or_slider_labels ++ " | 5,Outstanding") }

/-- `seed_corpus` (seed.py line 54) writes the v2 gold as the concatenation
of the first-pass gold and the since-last-run records. -/
def seedV2Gold (gold1 gold2_extra : List GoldRec) : List GoldRec := gold1 ++ gold2_extra

/-- `dd_eval.corrupt.apply_since_last_run`, with the per-row
`rng.randrange(0, 100)` draws abstracted (`draws i` is the i-th value of
`random.Random(seed + 1)`). -/
def apply_since_last_run (d_rows : List DictRow) (x_rows : List DataRow)
    (draws : Nat → Nat) : List DictRow × List DataRow × List GoldRec :=
  let goldDomPair : List DictRow × List GoldRec :=
    match dictByVarLookup d_rows "satisfaction" with
    | some r =>
      if strContainsSub "5," r.choices_calculations_or_slider_labels = false then
        (replaceLastSat satUpdateRow d_rows,
         [{ type := "domain_mismatch_since_last_run", var := "satisfaction",
            observed_added := some ["5=Outstanding"], rows_affected := some 0 }])
      else (d_rows, ([] : List GoldRec))
    | none => (d_rows, [])
  let x2 := x_rows.mapIdx fun i row =>
    pyDictInsert "new_since_last_run" (natStr (draws i % 100)) row
  (goldDomPair.1, x2,
   goldDomPair.2 ++
     [{ type := "extra_column_since_last_run", var := "new_since_last_run",
        rows_affected := some x_rows.length }])

theorem replaceFirstSat_skip (f : DictRow → DictRow) :
    ∀ (l1 : List DictRow) (r : DictRow) (l2 : List DictRow),
      (∀ x ∈ l1, x.variable_name ≠ "satisfaction") → r.variable_name = "satisfaction" →
      replaceFirstSat f (l1 ++ r :: l2) = l1 ++ f r :: l2
  | [], r, l2, _, hr => by
    simp [replaceFirstSat, hr]
  | a :: t, r, l2, h1, hr => by
    have ha : a.variable_name ≠ "satisfaction" := h1 a (List.mem_cons_self a t)
    simp only [List.cons_append, replaceFirstSat, if_neg ha]
    exact congrArg (List.cons a)
      (replaceFirstSat_skip f t r l2 (fun x hx => h1 x (List.mem_cons_of_mem a hx)) hr)

theorem dictByVarLookup_middle (pre post : List DictRow) (satRow : DictRow)
    (hsat : satRow.variable_name = "satisfaction")
    (hpost : ∀ r ∈ post, r.variable_name ≠ "satisfaction") :
    dictByVarLookup (pre ++ satRow :: post) "satisfaction" = some satRow := by
  unfold dictByVarLookup
  rw [List.reverse_append, List.reverse_cons, List.append_assoc]
  rw [List.find?_append]
  have hnone : post.reverse.find? (fun r => r.variable_name = "satisfaction") = none := by
    rw [List.find?_eq_none]
    intro x hx
    simpa using hpost x (List.mem_reverse.mp hx)
  rw [hnone]
  simp [List.find?_append, List.find?, hsat]

theorem replaceLastSat_middle (f : DictRow → DictRow) (pre post : List DictRow)
    (satRow : DictRow) (hsat : satRow.variable_name = "satisfaction")
    (hpost : ∀ r ∈ post, r.variable_name ≠ "satisfaction") :
    replaceLastSat f (pre ++ satRow :: post) = pre ++ f satRow :: post := by
  unfold replaceLastSat
  rw [List.reverse_append, List.reverse_cons, List.append_assoc, List.singleton_append]
  rw [replaceFirstSat_skip f post.reverse satRow pre.reverse
    (fun x hx => hpost x (List.mem_reverse.mp hx)) hsat]
  simp

/-- C6.  On an already-perturbed pair whose dictionary declares a
`satisfaction` field (last occurrence without a `5,` code, as every fixture
dictionary has), `apply_since_last_run` makes exactly two changes: the
satisfaction choices gain ` | 5,Outstanding` (gold type
`domain_mismatch_since_last_run`) and every data row gains the
`new_since_last_run` column (gold type `extra_column_since_last_run`);
its returned gold list is exactly those two records, and the v2 gold the
seeder writes (seed.py line 54) is the first-pass gold concatenated with
them. -/
theorem claim_C6_since_last_run_appends_two_changes
    (pre post : List DictRow) (satRow : DictRow) (x_rows : List DataRow) (draws : Nat → Nat)
    (hsat : satRow.variable_name = "satisfaction")
    (hpost : ∀ r ∈ post, r.variable_name ≠ "satisfaction")
    (h5 : strContainsSub "5," satRow.choices_calculations_or_slider_labels = false) :
    apply_since_last_run (pre ++ satRow :: post) x_rows draws =
      (pre ++ satUpdateRow satRow :: post,
       x_rows.mapIdx (fun i row =>
         pyDictInsert "new_since_last_run" (natStr (draws i % 100)) row),
       [{ type := "domain_mismatch_since_last_run", var := "satisfaction",
          observed_added := some ["5=Outstanding"], rows_affected := some 0 },
        { type := "extra_column_since_last_run", var := "new_since_last_run",
          rows_affected := some x_rows.length }]) ∧
    (∀ gold1 : List GoldRec,
      seedV2Gold gold1 (apply_since_last_run (pre ++ satRow :: post) x_rows draws).2.2 =
        gold1 ++
          [{ type := "domain_mismatch_since_last_run", var := "satisfaction",
             observed_added := some ["5=Outstanding"], rows_affected := some 0 },
           { type := "extra_column_since_last_run", var := "new_since_last_run",
             rows_affected := some x_rows.length }]) := by
  have hmain : apply_since_last_run (pre ++ satRow :: post) x_rows draws =
      (pre ++ satUpdateRow satRow :: post,
       x_rows.mapIdx (fun i row =>
         pyDictInsert "new_since_last_run" (natStr (draws i % 100)) row),
       [{ type := "domain_mismatch_since_last_run", var := "satisfaction",
          observed_added := some ["5=Outstanding"], rows_affected := some 0 },
        { type := "extra_column_since_last_run", var := "new_since_last_run",
          rows_affected := some x_rows.length }]) := by
    simp only [apply_since_last_run, dictByVarLookup_middle pre post satRow hsat hpost]
    rw [if_pos h5]
    rw [replaceLastSat_middle satUpdateRow pre post satRow hsat hpost]
    rfl
  exact ⟨hmain, fun gold1 => by rw [hmain]; rfl⟩

def satRowC6 : DictRow :=
  { variable_name := "satisfaction", field_type := "radio",
    choices_calculations_or_slider_labels := "1,Low | 2,High" }

/-- Witness for C6 on a one-field dictionary and a one-row dataset. -/
theorem claim_C6_since_last_run_appends_two_changes_witness :
    apply_since_last_run [satRowC6] [[("record_id", "1")]] (fun _ => 7) =
      ([{ satRowC6 with
          choices_calculations_or_slider_labels := "1,Low | 2,High | 5,Outstanding" }],
       [[("record_id", "1"), ("new_since_last_run", "7")]],
       [{ type := "domain_mismatch_since_last_run", var := "satisfaction",
          observed_added := some ["5=Outstanding"], rows_affected := some 0 },
        { type := "extra_column_since_last_run", var := "new_since_last_run",
          rows_affected := some 1 }]) :=
  ((claim_C6_since_last_run_appends_two_changes [] [] satRowC6 [[("record_id", "1")]]
    (fun _ => 7) rfl (by decide) (by decide)).1).trans (by rfl)

/-- C3.  The claim is false on the code: the unit-anomaly recipe gates each
row on the module-global `random.random()`, not the seeded `rng`, so with
identical inputs (and any fixed seed) two invocations can transform the
data and log gold differently — here an all-false and an all-true global
stream give an empty and a one-record gold list respectively. -/
theorem claim_C3_unit_anomaly_reads_global_stream :
    (corrupt_unit_anomaly (fun _ => false) [[("height_cm", "150")]]).2 = [] ∧
    (corrupt_unit_anomaly (fun _ => true) [[("height_cm", "150")]]).2 =
      [{ type := "unit_anomaly", var := "height_cm", expected_unit := some "cm",
         note := some "subset appears inches", rows_affected := some 1 }] ∧
    corrupt_unit_anomaly (fun _ => false) [[("height_cm", "150")]] ≠
      corrupt_unit_anomaly (fun _ => true) [[("height_cm", "150")]] := by
  have h1 : (corrupt_unit_anomaly (fun _ => false) [[("height_cm", "150")]]).2 =
      [] := rfl
  have h2 : (corrupt_unit_anomaly (fun _ => true) [[("height_cm", "150")]]).2 =
      [{ type := "unit_anomaly", var := "height_cm", expected_unit := some "cm",
         note := some "subset appears inches", rows_affected := some 1 }] := rfl
  refine ⟨h1, h2, fun h => ?_⟩
  have hc := congrArg Prod.snd h
  rw [h1, h2] at hc
  exact List.cons_ne_nil _ _ hc.symm

end DD
